import Mathlib

/-!
Shallow embedding of the NFSe emission core of the EMISSOR_NFCE_BLING
repository (backend/src/bling/bling.service.ts, rps.service.ts and the
pedidos_venda_rps entity, plus the frontend cancelled-order filter of
PedidosVenda.tsx).

Strings that the code computes on (tax documents, RPS numbers, order
numbers) are modelled as lists of characters (`Str`); opaque strings that
are only compared for equality (statuses, messages) stay `String`.
JavaScript truthiness of nullable strings/numbers is modelled explicitly
(`strTruthy`, `intTruthy`): `undefined`/`null` is `none`, and the empty
string / the number 0 are falsy.  External HTTP calls are oracles passed
in as parameters; a call that can throw is an `Except String` value, and
a call whose failures are swallowed by the source (returning `null`) is
an `Option`.  The durable RPS queue is a list of rows; the database's
uniqueness constraint on `pedidoVendaId` is modelled by `criar` failing
on a duplicate.  Timestamps are integers (milliseconds, `Date.now()`).
-/

set_option autoImplicit false

namespace Emissor

/-- A JavaScript string, modelled by its character sequence. -/
abbrev Str := List Char

/-- JS `String.prototype.trim()`: strip whitespace from both ends. -/
def jsTrim (s : Str) : Str :=
  ((s.dropWhile Char.isWhitespace).reverse.dropWhile Char.isWhitespace).reverse

/-- JS `s.replace(/\D/g, '')`: keep only the decimal digits. -/
def stripNonDigits (s : Str) : Str := s.filter Char.isDigit

/-- JS truthiness of a nullable string: `undefined`/`null` and `''` are falsy. -/
def strTruthy : Option Str → Bool
  | none => false
  | some s => !s.isEmpty

/-- JS `a || b` on nullable strings. -/
def jsOrStr (a b : Option Str) : Option Str :=
  if strTruthy a then a else b

/-- JS `a || null` on a nullable string (empty collapses to null). -/
def jsOrNull (a : Option Str) : Option Str :=
  if strTruthy a then a else none

/-- JS truthiness of a nullable number: `undefined`/`null` and `0` are falsy. -/
def intTruthy : Option Int → Bool
  | none => false
  | some v => v != 0

/-- JS `a || b` where `a` is a nullable number and `b` a number. -/
def jsNumOr (a : Option Int) (b : Int) : Int :=
  match a with
  | none => b
  | some v => if v = 0 then b else v

/-- Decimal digit characters of a natural number, fuel-driven so that the
definition is structural and evaluates inside `decide`/`rfl`.
Mirrors JS number-to-string coercion (`String(n)`, template literals). -/
def natStrAux : Nat → Nat → Str
  | 0, _ => []
  | fuel + 1, n =>
    if n < 10 then [Nat.digitChar n]
    else natStrAux fuel (n / 10) ++ [Nat.digitChar (n % 10)]

/-- JS `String(n)` for a natural number. -/
def natStr (n : Nat) : Str := natStrAux (n + 1) n

/-- JS `s.padStart(n, '0')`. -/
def padStartZeros (s : Str) (n : Nat) : Str :=
  List.replicate (n - s.length) '0' ++ s

/-! ## The QueueStore: `pedidos_venda_rps` rows and `RpsService` -/

/-- One row of the `pedidos_venda_rps` table
(entity `PedidoVendaRPS`, pedido-venda-rps.entity.ts). -/
structure RpsRow where
  id : Nat
  pedidoVendaId : Str
  numeroPedido : Str
  numeroRPS : Option Str
  serie : Option Str
  nfseId : Option Str
  numeroNFSe : Option Str
  status : String
  mensagemErro : Option String
  valorTotal : Int
  nomeCliente : Str
deriving Repr, DecidableEq

/-- `RpsService.buscarPorPedidoId`: first row whose `pedidoVendaId`
matches (TypeORM `findOne` on the unique column). -/
def buscarPorPedidoId (store : List RpsRow) (pedidoId : Str) : Option RpsRow :=
  store.find? (fun r => r.pedidoVendaId = pedidoId)

/-- `RpsService.buscarPorId`: first row with the given primary key. -/
def buscarPorId (store : List RpsRow) (id : Nat) : Option RpsRow :=
  store.find? (fun r => r.id = id)

/-- Fresh primary key for an insert. -/
def proximoId (store : List RpsRow) : Nat :=
  (store.map (fun r => r.id)).foldl Nat.max 0 + 1

/-- `RpsService.criar`: insert a row.  The database enforces
`@Column({ unique: true })` on `pedidoVendaId`; a duplicate insert
raises, which the model reports as `Except.error`. -/
def criar (store : List RpsRow) (row : RpsRow) : Except String (List RpsRow) :=
  if store.any (fun r => r.pedidoVendaId = row.pedidoVendaId) then
    Except.error "duplicate key value violates unique constraint"
  else
    Except.ok (store ++ [row])

/-- A partial update, as passed to `RpsService.atualizar`: only the
fields the callers in bling.service.ts ever write. -/
structure RpsUpdate where
  status : Option String := none
  numeroNFSe : Option (Option Str) := none
  mensagemErro : Option (Option String) := none
deriving Repr, DecidableEq

/-- Apply a partial update to one row (TypeORM field-level `update`). -/
def aplicarUpdate (u : RpsUpdate) (r : RpsRow) : RpsRow :=
  { r with
    status := u.status.getD r.status
    numeroNFSe := u.numeroNFSe.getD r.numeroNFSe
    mensagemErro := u.mensagemErro.getD r.mensagemErro }

/-- `RpsService.atualizar`: update the row with the given primary key. -/
def atualizar (store : List RpsRow) (id : Nat) (u : RpsUpdate) : List RpsRow :=
  store.map (fun r => if r.id = id then aplicarUpdate u r else r)

/-! ## TokenManager: the OAuth token lifecycle of `BlingService` -/

/-- The in-memory `BlingTokens` value.  `expires_at` is optional in the
source (`expires_at?: number`), and JS treats `0` as falsy. -/
structure BlingTokens where
  access_token : String
  expires_in : Int
  token_type : String
  scope : String
  refresh_token : String
  expires_at : Option Int := none
deriving Repr, DecidableEq

/-- `refreshAccessToken`: fails when no refresh token is held (absent
tokens or an empty `refresh_token` string, both falsy in JS); otherwise
the outcome of the refresh-token grant (`fetch` of the token URL, 30s
timeout — failures of either kind are the `Except.error` case) becomes
the new token state, with `expires_at := now + expires_in * 1000`. -/
def refreshAccessToken (tokens : Option BlingTokens) (now : Int)
    (grantOutcome : Except String BlingTokens) : Except String BlingTokens :=
  match tokens with
  | none => Except.error "Nenhum refresh token disponível"
  | some t =>
    if t.refresh_token.isEmpty then
      Except.error "Nenhum refresh token disponível"
    else
      match grantOutcome with
      | Except.error e => Except.error e
      | Except.ok novo =>
        Except.ok { novo with expires_at := some (now + novo.expires_in * 1000) }

/-- `ensureValidToken`: throws when no token is held; refreshes when
`now >= expiresAt - 5 * 60 * 1000` (with `expiresAt` defaulting to 0);
otherwise returns the cached access token.  The result carries the
access token returned together with the token state afterwards. -/
def ensureValidToken (tokens : Option BlingTokens) (now : Int)
    (grantOutcome : Except String BlingTokens) :
    Except String (String × Option BlingTokens) :=
  match tokens with
  | none => Except.error "Nenhum token disponível. Realize a autenticação primeiro."
  | some t =>
    let expiresAt := t.expires_at.getD 0
    if expiresAt - 5 * 60 * 1000 ≤ now then
      match refreshAccessToken (some t) now grantOutcome with
      | Except.error e => Except.error e
      | Except.ok novo => Except.ok (novo.access_token, some novo)
    else
      Except.ok (t.access_token, some t)

/-- `loadTokens` (run from the constructor on process restart): the
stored tokens file (`none` when absent) is loaded into memory only when
`tokens.expires_at && now < tokens.expires_at`; otherwise
`deleteTokensFile()` removes the file.  Result: (in-memory token state,
file contents afterwards). -/
def loadTokens (armazenado : Option BlingTokens) (now : Int) :
    Option BlingTokens × Option BlingTokens :=
  match armazenado with
  | none => (none, none)
  | some t =>
    match t.expires_at with
    | some e => if e ≠ 0 ∧ now < e then (some t, some t) else (none, none)
    | none => (none, none)

/-! ## ContactResolver: `buscarContatoPorCPF`, `verificarOuCriarContato` -/

/-- The four ways an outbound `fetch` wrapped in an `AbortController`
can end: 30-second timeout (`AbortError`), some other thrown error, a
non-OK HTTP status, or an OK response with a parsed body. -/
inductive FetchOutcome (α : Type) where
  | timeout : FetchOutcome α
  | netErr (msg : String) : FetchOutcome α
  | httpErr (status : Nat) (body : String) : FetchOutcome α
  | ok (val : α) : FetchOutcome α
deriving Repr, DecidableEq

/-- A contact as it appears in the `/contatos` search response. -/
structure ContatoResumo where
  id : Nat
  nome : Str
  numeroDocumento : Option Str
deriving Repr, DecidableEq

/-- The parsed `/contatos?pesquisa=` page (`result.data`, absent data
modelled as the empty list). -/
structure ContatosPagina where
  data : List ContatoResumo
deriving Repr, DecidableEq

/-- The full contact profile (`obterDetalhesContato` / used by
`construirPayloadNFSe`). -/
structure ContatoDetalhes where
  id : Nat
  nome : Str
  numeroDocumento : Option Str
  cpfCnpj : Option Str
  email : Option Str
  celular : Option Str
deriving Repr, DecidableEq

/-- `buscarContatoPorCPF`: the whole body sits in one `try`; the catch
maps `AbortError` and every other thrown error to `null`, a non-OK
response returns `null`, and an OK page is scanned for a contact whose
normalized document digits equal the searched CPF exactly (loose search
matches are rejected).  The `ensureValidToken()` call at the top can
throw; that too lands in the catch. -/
def buscarContatoPorCPF (tokenOutcome : Except String String)
    (respOutcome : FetchOutcome ContatosPagina) (cpf : Str) : Option ContatoResumo :=
  match tokenOutcome with
  | Except.error _ => none
  | Except.ok _ =>
    match respOutcome with
    | FetchOutcome.timeout => none
    | FetchOutcome.netErr _ => none
    | FetchOutcome.httpErr _ _ => none
    | FetchOutcome.ok page =>
      if page.data.length > 0 then
        match page.data.find? (fun c =>
            strTruthy c.numeroDocumento &&
              decide (stripNonDigits (c.numeroDocumento.getD []) = cpf)) with
        | some contatoEncontrado => some contatoEncontrado
        | none => none
      else
        none

/-- `verificarOuCriarContato` (the duplicata flow's contact resolution):
strip the responsible party's CPF, fail when it is absent or empty,
search by CPF, create a new contact when the search found nothing, then
mandatorily fetch the full profile by id, failing when that read comes
back empty.  `buscaPorCpf` is the (never-throwing) search,
`criarOutcome` the outcome of `criarContato`, `detalhesDe` the
full-profile read (`obterDetalhesContato`, returns `null` on failure). -/
def verificarOuCriarContato (cpfBruto : Option Str)
    (buscaPorCpf : Str → Option ContatoResumo)
    (criarOutcome : Except String ContatoResumo)
    (detalhesDe : Nat → Option ContatoDetalhes) : Except String ContatoDetalhes :=
  let cpf := cpfBruto.map stripNonDigits
  match cpf with
  | none => Except.error "CPF não informado na duplicata"
  | some c =>
    if c.isEmpty then Except.error "CPF não informado na duplicata"
    else
      let contatoId : Except String Nat :=
        match buscaPorCpf c with
        | some contatoExistente => Except.ok contatoExistente.id
        | none =>
          match criarOutcome with
          | Except.error e => Except.error e
          | Except.ok novoContato => Except.ok novoContato.id
      match contatoId with
      | Except.error e => Except.error e
      | Except.ok cid =>
        match detalhesDe cid with
        | none => Except.error "Não foi possível obter os dados completos do contato"
        | some dadosCompletos => Except.ok dadosCompletos

/-! ## Sales orders and the ServiceLineFilter -/

/-- The customer reference embedded in a sales order. -/
structure ContatoPedido where
  id : Nat
  numeroDocumento : Option Str
deriving Repr, DecidableEq

/-- One order line item (`pedido.itens[i]`). -/
structure ItemPedido where
  produtoId : Nat
  descricao : Option Str
  valor : Option Int
  valorUnidade : Option Int
deriving Repr, DecidableEq

/-- A product as returned by `obterDetalhesProduto`. -/
structure Produto where
  tipo : Str
  descricao : Option Str
deriving Repr, DecidableEq

/-- A sales order as returned by `obterDetalhesPedidoVenda`.
`situacaoId` is `pedido.situacao.id` (the sales-order situation code). -/
structure Pedido where
  id : Nat
  numero : Nat
  situacaoId : Option Int
  contato : Option ContatoPedido
  itens : List ItemPedido
deriving Repr, DecidableEq

/-- `isConsumidorFinal`: no contact, no (falsy) tax document, or a
document whose digit-stripped form is empty or under 11 digits. -/
def isConsumidorFinal (pedido : Pedido) : Bool :=
  match pedido.contato with
  | none => true
  | some contato =>
    if !strTruthy contato.numeroDocumento then true
    else
      let doc := stripNonDigits (contato.numeroDocumento.getD [])
      if doc.isEmpty || doc.length < 11 then true
      else false

/-- One retained billable-service line, as accumulated in the
`servicos` array of `gerarRPSParaPedidos` (step 5). -/
structure Servico where
  descricao : Option Str
  valor : Int
deriving Repr, DecidableEq

/-- `item.valor || item.valorUnidade || 0`. -/
def valorDoItem (item : ItemPedido) : Int :=
  jsNumOr item.valor (jsNumOr item.valorUnidade 0)

/-- Step 5 of `gerarRPSParaPedidos`: fetch each line's product; a failed
fetch is logged and the line skipped; only products with `tipo === 'S'`
are retained. -/
def filtrarServicos (produtoDe : Nat → Except String Produto)
    (itens : List ItemPedido) : List Servico :=
  itens.foldl (fun acc item =>
    match produtoDe item.produtoId with
    | Except.error _ => acc
    | Except.ok produto =>
      if produto.tipo = "S".data then
        acc ++ [{ descricao := jsOrStr produto.descricao item.descricao
                  valor := valorDoItem item }]
      else acc) []

/-! ## InvoiceEmitter: payload construction and RPS numbers -/

/-- The RPS-number derivation inside `construirPayloadNFSe`:
`numeroPedido` concatenated with `Math.floor(Math.random() * 10 ^ d)`
zero-padded to the `d = 8 - numeroPedido.length` remaining digits
(empty when `d <= 0`), the whole sliced to 8 characters.  `rand` stands
for the drawn random number; the source guarantees
`rand < 10 ^ d` when `d > 0`. -/
def gerarNumeroRPS (numeroPedido : Str) (rand : Nat) : Str :=
  let digitosRestantes : Int := 8 - (numeroPedido.length : Int)
  let aleatorio : Str :=
    if 0 < digitosRestantes then
      padStartZeros (natStr rand) digitosRestantes.toNat
    else []
  (numeroPedido ++ aleatorio).take 8

/-- The contact block of the NFSe payload. -/
structure PayloadContato where
  id : Nat
  nome : Str
  numeroDocumento : Str
  email : Str
deriving Repr, DecidableEq

/-- One service entry of the NFSe payload. -/
structure PayloadServico where
  codigo : Str
  descricao : Option Str
  valor : Int
deriving Repr, DecidableEq

/-- One instalment entry of the NFSe payload. -/
structure PayloadParcela where
  data : Str
  valor : Int
  formaPagamentoId : Nat
deriving Repr, DecidableEq

/-- The NFSe creation payload built by `construirPayloadNFSe`.  The
conditional contact adornments of the source (`ie`, `im`, `telefone`,
`endereco`, `vendedor`) are presence-only pass-throughs that no claim
touches and are not modelled. -/
structure Payload where
  numeroRPS : Str
  serie : Str
  data : Str
  baseCalculo : Int
  reterISS : Bool
  desconto : Int
  contato : PayloadContato
  servicos : List PayloadServico
  parcelas : List PayloadParcela
deriving Repr, DecidableEq

/-- `construirPayloadNFSe`: total of the billable lines, fresh RPS
number, series "1", emission date = today, fixed LC 116 service code
"5.08", a single instalment with the fixed payment-method id. -/
def construirPayloadNFSe (pedido : Pedido) (contato : ContatoDetalhes)
    (servicos : List Servico) (formaPagamentoId : Nat) (rand : Nat)
    (hoje : Str) : Payload :=
  let valorTotal := servicos.foldl (fun sum s => sum + s.valor) 0
  let numeroRPS := gerarNumeroRPS (natStr pedido.numero) rand
  { numeroRPS := numeroRPS
    serie := "1".data
    data := hoje
    baseCalculo := valorTotal
    reterISS := false
    desconto := 0
    contato :=
      { id := contato.id
        nome := contato.nome
        numeroDocumento := (jsOrStr contato.numeroDocumento contato.cpfCnpj).getD []
        email := (jsOrStr contato.email (some "naotem@email.com".data)).getD [] }
    servicos := servicos.map (fun s =>
      { codigo := "5.08".data, descricao := s.descricao, valor := s.valor })
    parcelas := [{ data := hoje, valor := valorTotal, formaPagamentoId := formaPagamentoId }] }

/-- The RPS-number rule of the legacy duplicata flow (`criarDadosNFSe`):
reuse `duplicata.rps` when non-empty after trimming, otherwise generate
`` `${Date.now()}${duplicata.numero}` ``. -/
def rpsNumeroCriarDadosNFSe (rpsCampo : Option Str) (numeroDuplicata : Str)
    (agoraTs : Nat) : Str :=
  let rpsExistente := jsTrim (rpsCampo.getD [])
  if 0 < rpsExistente.length then rpsExistente
  else natStr agoraTs ++ numeroDuplicata

/-! ## The generate entry point: `gerarRPSParaPedidos` -/

/-- The parsed `POST /nfse` creation response (`nfseResponse.data`). -/
structure NfseResposta where
  id : Nat
  numeroRPS : Option Str
  serie : Option Str
deriving Repr, DecidableEq

/-- The external collaborators of `gerarRPSParaPedidos`, as oracles:
order fetch (throws on failure), full-contact fetch (swallows failures
into `null`), product fetch (throws), NFSe creation (throws), the
random draw used for the RPS number of each order, and today's date. -/
structure GerarEnv where
  pedidoDe : Nat → Except String Pedido
  contatoDe : Nat → Option ContatoDetalhes
  produtoDe : Nat → Except String Produto
  emitirNFSe : Payload → Except String NfseResposta
  randFor : Nat → Nat
  hoje : Str

/-- One per-order entry of the generate result list. -/
structure ResultadoGerar where
  pedidoId : Nat
  numeroPedido : Nat
  status : String
  mensagem : String
  numeroRPS : Option Str
  nfseId : Option Nat
deriving Repr, DecidableEq

/-- The catch-all per-order error entry (`numeroPedido: pedidoId`,
`error.message || 'Erro ao gerar RPS'`). -/
def resultadoErro (pedidoId : Nat) (msg : String) : ResultadoGerar :=
  { pedidoId := pedidoId
    numeroPedido := pedidoId
    status := "erro"
    mensagem := if msg.isEmpty then "Erro ao gerar RPS" else msg
    numeroRPS := none
    nfseId := none }

/-- Steps 2-10 of the per-order body of `gerarRPSParaPedidos`, after the
order itself was fetched: consumer-final check, duplicate check against
the store, contact fetch, service-line filtering, empty-service check,
payload construction and emission, and the `pendente` insert.  A `none`
order contact would make `pedido.contato.id` (step 4) throw, and a
`null` full contact makes `contato.id` inside `construirPayloadNFSe`
(step 8) throw; both land in the per-order catch. -/
def processarPedidoCarregado (env : GerarEnv) (store : List RpsRow)
    (pedidoId : Nat) (pedido : Pedido) : ResultadoGerar × List RpsRow :=
  if isConsumidorFinal pedido then
    ({ pedidoId := pedidoId, numeroPedido := pedido.numero, status := "ignorado"
       mensagem := "Pedido é consumidor final - RPS não será gerado"
       numeroRPS := none, nfseId := none }, store)
  else
    match buscarPorPedidoId store (natStr pedidoId) with
    | some rpsExistente =>
      ({ pedidoId := pedidoId, numeroPedido := pedido.numero, status := "ignorado"
         mensagem := "RPS já existe para este pedido"
         numeroRPS := rpsExistente.numeroRPS, nfseId := none }, store)
    | none =>
      match pedido.contato with
      | none => (resultadoErro pedidoId "TypeError: pedido.contato is undefined", store)
      | some contatoPedido =>
        let contato := env.contatoDe contatoPedido.id
        let servicos := filtrarServicos env.produtoDe pedido.itens
        if servicos.isEmpty then
          ({ pedidoId := pedidoId, numeroPedido := pedido.numero, status := "ignorado"
             mensagem := "Pedido não contém serviços"
             numeroRPS := none, nfseId := none }, store)
        else
          match contato with
          | none => (resultadoErro pedidoId "TypeError: contato is null", store)
          | some dadosContato =>
            let payload := construirPayloadNFSe pedido dadosContato servicos 2222749
              (env.randFor pedidoId) env.hoje
            match env.emitirNFSe payload with
            | Except.error e => (resultadoErro pedidoId e, store)
            | Except.ok nfseResponse =>
              let valorTotal := servicos.foldl (fun sum s => sum + s.valor) 0
              let novaLinha : RpsRow :=
                { id := proximoId store
                  pedidoVendaId := natStr pedidoId
                  numeroPedido := natStr pedido.numero
                  numeroRPS := some ((jsOrStr nfseResponse.numeroRPS
                    (some payload.numeroRPS)).getD [])
                  serie := some ((jsOrStr nfseResponse.serie (some payload.serie)).getD [])
                  nfseId := some (natStr nfseResponse.id)
                  numeroNFSe := none
                  status := "pendente"
                  mensagemErro := none
                  valorTotal := valorTotal
                  nomeCliente := dadosContato.nome }
              match criar store novaLinha with
              | Except.error e => (resultadoErro pedidoId e, store)
              | Except.ok store2 =>
                ({ pedidoId := pedidoId, numeroPedido := pedido.numero
                   status := "sucesso", mensagem := "RPS gerado com sucesso"
                   numeroRPS := nfseResponse.numeroRPS
                   nfseId := some nfseResponse.id }, store2)

/-- The per-order body of `gerarRPSParaPedidos`, fetch included. -/
def processarPedido (env : GerarEnv) (store : List RpsRow) (pedidoId : Nat) :
    ResultadoGerar × List RpsRow :=
  match env.pedidoDe pedidoId with
  | Except.error e => (resultadoErro pedidoId e, store)
  | Except.ok pedido => processarPedidoCarregado env store pedidoId pedido

/-- `gerarRPSParaPedidos`: sequential loop over the requested order ids;
`processados` counts the orders that ended in `sucesso`.  Result:
(per-order results, store afterwards, `processados`). -/
def gerarRPSParaPedidos (env : GerarEnv) (store : List RpsRow)
    (pedidoIds : List Nat) : List ResultadoGerar × List RpsRow × Nat :=
  pedidoIds.foldl (fun acc pedidoId =>
    let r := processarPedido env acc.2.1 pedidoId
    (acc.1 ++ [r.1], r.2,
      if r.1.status = "sucesso" then acc.2.2 + 1 else acc.2.2))
    ([], store, 0)

/-! ## The frontend cancelled-order filter (PedidosVenda.tsx) -/

/-- What `carregarPedidos` sees of one order in the list response. -/
structure PedidoResumo where
  numero : Int
  situacaoId : Option Int
deriving Repr, DecidableEq

/-- The local filtering of `carregarPedidos`: keep orders at or above
the configured initial number (when set and positive), then drop every
order whose situation id is the cancelled code 2 (the source compares
both as number and as string; both collapse to equality with 2). -/
def filtrarPedidosFrontend (numeroInicial : Option Int)
    (pedidos : List PedidoResumo) : List PedidoResumo :=
  let aposInicial : List PedidoResumo :=
    match numeroInicial with
    | some n => if 0 < n then pedidos.filter (fun p => decide (n ≤ p.numero)) else pedidos
    | none => pedidos
  aposInicial.filter (fun p => decide (p.situacaoId ≠ some 2))

/-! ## The submit entry point: `enviarNFSeParaPrefeitura` -/

/-- The parsed `GET /Api/v3/nfse/{id}` body (`nfseData.data` /
`response.data`), as read by the compensating check and by the status
reconciler.  In the submit flow's vocabulary `situacao` 2 means
"Emitida"; in the reconciler's, 1/2 mean issued, 3 cancelled, 0 pending. -/
structure NfseConsulta where
  situacao : Option Int
  numero : Option Str
deriving Repr, DecidableEq

/-- The external collaborators of `enviarNFSeParaPrefeitura`: the
municipal submission call (`POST /nfse/{id}/enviar`, 120s timeout; the
`Option Str` is `response?.data?.numero`) and the compensating NFSe read
(`GET /nfse/{id}`; `Option NfseConsulta` is `nfseData?.data`), both
keyed by the record's external invoice id. -/
structure EnvioEnv where
  enviarDe : Str → Except String (Option Str)
  consultarDe : Str → Except String (Option NfseConsulta)

/-- One per-record entry of the submit result list. -/
structure ResultadoEnvio where
  rpsId : Nat
  status : String
  numeroNFSe : Option Str
  mensagem : String
deriving Repr, DecidableEq

/-- The per-record body of `enviarNFSeParaPrefeitura`: look the record
up, require an external invoice id, mark it `processando`, submit; a
settled number in the response means `emitido`+`sucesso`, its absence
means accepted-but-pending (`processando`).  When the submission (or
anything before it) throws, the catch performs the compensating read:
an invoice with `situacao === 2` or a present number is recovered as
`emitido`/`sucesso`; otherwise — the read failed or the invoice is not
issued — the record is set to `erro` with the error message.  The third
component reports whether `enviados` was incremented. -/
def processarEnvio (env : EnvioEnv) (store : List RpsRow) (rpsId : Nat) :
    ResultadoEnvio × List RpsRow × Bool :=
  match buscarPorId store rpsId with
  | none =>
    ({ rpsId := rpsId, status := "erro", numeroNFSe := none
       mensagem := "RPS não encontrado" }, store, false)
  | some rps =>
    if !strTruthy rps.nfseId then
      ({ rpsId := rpsId, status := "erro", numeroNFSe := none
         mensagem := "NFSe ID não encontrado" }, store, false)
    else
      let nfseId := rps.nfseId.getD []
      let store1 := atualizar store rpsId { status := some "processando" }
      match env.enviarDe nfseId with
      | Except.ok numeroResposta =>
        if strTruthy numeroResposta then
          ({ rpsId := rpsId, status := "sucesso", numeroNFSe := numeroResposta
             mensagem := "NFSe emitida com sucesso" },
           atualizar store1 rpsId
             { status := some "emitido", numeroNFSe := some numeroResposta },
           true)
        else
          ({ rpsId := rpsId, status := "processando", numeroNFSe := none
             mensagem := "Enviado para prefeitura, aguardando retorno" },
           store1, false)
      | Except.error e =>
        match env.consultarDe nfseId with
        | Except.ok (some nfseData) =>
          if nfseData.situacao = some 2 ∨ strTruthy nfseData.numero then
            ({ rpsId := rpsId, status := "sucesso", numeroNFSe := nfseData.numero
               mensagem := "NFSe já estava emitida no Bling" },
             atualizar store1 rpsId
               { status := some "emitido", numeroNFSe := some (jsOrNull nfseData.numero) },
             true)
          else
            ({ rpsId := rpsId, status := "erro", numeroNFSe := none, mensagem := e },
             atualizar store1 rpsId
               { status := some "erro", mensagemErro := some (some e) },
             false)
        | _ =>
          ({ rpsId := rpsId, status := "erro", numeroNFSe := none, mensagem := e },
           atualizar store1 rpsId
             { status := some "erro", mensagemErro := some (some e) },
           false)

/-- `enviarNFSeParaPrefeitura`: sequential loop over the record ids.
Result: (per-record results, store afterwards, `enviados`). -/
def enviarNFSeParaPrefeitura (env : EnvioEnv) (store : List RpsRow)
    (rpsIds : List Nat) : List ResultadoEnvio × List RpsRow × Nat :=
  rpsIds.foldl (fun acc rpsId =>
    let r := processarEnvio env acc.2.1 rpsId
    (acc.1 ++ [r.1], r.2.1, if r.2.2 then acc.2.2 + 1 else acc.2.2))
    ([], store, 0)

/-! ## The sync entry point: `sincronizarStatusNFSe` -/

/-- The remote-situation-to-local-status table of the reconciler:
1/2 → `emitido`, 3 → `erro`, 0 → `pendente`, anything else leaves the
record's current status. -/
def mapSituacaoNFSe (statusAtual : String) (situacao : Option Int) : String :=
  if situacao = some 1 ∨ situacao = some 2 then "emitido"
  else if situacao = some 3 then "erro"
  else if situacao = some 0 then "pendente"
  else statusAtual

/-- The record selection of `sincronizarStatusNFSe`: the first 1000
`pendente` rows, the first 1000 `processando` rows, and those of the
first 1000 `emitido` rows that lack a (truthy) invoice number. -/
def selecionarParaSync (store : List RpsRow) : List RpsRow :=
  ((store.filter (fun r => r.status = "pendente")).take 1000)
    ++ ((store.filter (fun r => r.status = "processando")).take 1000)
    ++ (((store.filter (fun r => r.status = "emitido")).take 1000).filter
      (fun r => !strTruthy r.numeroNFSe))

/-- One iteration of the reconciler loop, threading
(store, `atualizados`, `corrigidos`).  A record without an external
invoice id is skipped.  A successful read maps the remote situation to
a local status and writes it (together with `nfse.numero || ` the old
number) when the status changed or a fresh number differs; discovering
the number of an `emitido`-without-number record counts as `corrigidos`,
any other write as `atualizados`.  A failed read rolls an
`emitido`-without-number record back to `pendente` with a diagnostic
message and counts it as `corrigidos`. -/
def syncPasso (consultarDe : Str → Except String (Option NfseConsulta))
    (acc : List RpsRow × Nat × Nat) (rps : RpsRow) : List RpsRow × Nat × Nat :=
  if !strTruthy rps.nfseId then acc
  else
    match consultarDe (rps.nfseId.getD []) with
    | Except.ok (some nfse) =>
      let novoStatus := mapSituacaoNFSe rps.status nfse.situacao
      if novoStatus ≠ rps.status ∨ (strTruthy nfse.numero ∧ nfse.numero ≠ rps.numeroNFSe) then
        let store2 := atualizar acc.1 rps.id
          { status := some novoStatus
            numeroNFSe := some (jsOrStr nfse.numero rps.numeroNFSe) }
        if rps.status = "emitido" ∧ !strTruthy rps.numeroNFSe ∧ strTruthy nfse.numero then
          (store2, acc.2.1, acc.2.2 + 1)
        else
          (store2, acc.2.1 + 1, acc.2.2)
      else acc
    | Except.ok none => acc
    | Except.error _ =>
      if rps.status = "emitido" ∧ !strTruthy rps.numeroNFSe then
        (atualizar acc.1 rps.id
          { status := some "pendente"
            mensagemErro := some (some "NFSe não encontrada no Bling - status resetado") },
         acc.2.1, acc.2.2 + 1)
      else acc

/-- `sincronizarStatusNFSe`.  Result:
(store afterwards, `verificados`, `atualizados`, `corrigidos`). -/
def sincronizarStatusNFSe (consultarDe : Str → Except String (Option NfseConsulta))
    (store : List RpsRow) : List RpsRow × Nat × Nat × Nat :=
  let paraVerificar := selecionarParaSync store
  let resultado := paraVerificar.foldl (syncPasso consultarDe) (store, 0, 0)
  (resultado.1, paraVerificar.length, resultado.2.1, resultado.2.2)

/-! # Verified properties -/

/-- C5: `ensureValidToken` refreshes exactly when
`now >= expiresAt - 5 minutes`: inside the window the result is the
refresh outcome (the refreshed state replacing the old one wholesale),
outside it the cached access token is returned with the token state
unchanged; in particular `expiresAt = now + 120 s` refreshes and
`expiresAt = now + 10 min` does not. -/
theorem ensureValidToken_janela_de_renovacao :
    (∀ (t : BlingTokens) (now : Int) (grant : Except String BlingTokens),
      t.expires_at.getD 0 - 5 * 60 * 1000 ≤ now →
        ensureValidToken (some t) now grant =
          match refreshAccessToken (some t) now grant with
          | Except.error e => Except.error e
          | Except.ok novo => Except.ok (novo.access_token, some novo)) ∧
    (∀ (t : BlingTokens) (now : Int) (grant : Except String BlingTokens),
      now < t.expires_at.getD 0 - 5 * 60 * 1000 →
        ensureValidToken (some t) now grant = Except.ok (t.access_token, some t)) ∧
    (∀ (t : BlingTokens) (now : Int) (grant : Except String BlingTokens),
      t.expires_at = some (now + 120 * 1000) →
        ensureValidToken (some t) now grant =
          match refreshAccessToken (some t) now grant with
          | Except.error e => Except.error e
          | Except.ok novo => Except.ok (novo.access_token, some novo)) ∧
    (∀ (t : BlingTokens) (now : Int) (grant : Except String BlingTokens),
      t.expires_at = some (now + 10 * 60 * 1000) →
        ensureValidToken (some t) now grant = Except.ok (t.access_token, some t)) := by
  refine ⟨?_, ?_, ?_, ?_⟩
  · intro t now grant h
    simp only [ensureValidToken, if_pos h]
  · intro t now grant h
    have h2 : ¬ (t.expires_at.getD 0 - 5 * 60 * 1000 ≤ now) := by omega
    simp only [ensureValidToken, if_neg h2]
  · intro t now grant h
    have h2 : t.expires_at.getD 0 - 5 * 60 * 1000 ≤ now := by
      rw [h]; simp only [Option.getD_some]; omega
    simp only [ensureValidToken, if_pos h2]
  · intro t now grant h
    have h2 : ¬ (t.expires_at.getD 0 - 5 * 60 * 1000 ≤ now) := by
      rw [h]; simp only [Option.getD_some]; omega
    simp only [ensureValidToken, if_neg h2]

/-- Witness for C5 at a concrete token state: a token expiring in 120
seconds is refreshed (and the refreshed state is stored), one expiring
in 10 minutes is returned from cache unchanged. -/
theorem ensureValidToken_janela_de_renovacao_witness :
    ensureValidToken
      (some { access_token := "velho", expires_in := 21600, token_type := "bearer"
              scope := "nfse", refresh_token := "r1", expires_at := some 720000 })
      600000
      (Except.ok { access_token := "novo", expires_in := 21600, token_type := "bearer"
                   scope := "nfse", refresh_token := "r2", expires_at := none }) =
      Except.ok ("novo",
        some { access_token := "novo", expires_in := 21600, token_type := "bearer"
               scope := "nfse", refresh_token := "r2"
               expires_at := some (600000 + 21600 * 1000) }) ∧
    ensureValidToken
      (some { access_token := "velho", expires_in := 21600, token_type := "bearer"
              scope := "nfse", refresh_token := "r1", expires_at := some 600000 })
      0
      (Except.error "nunca chamado") =
      Except.ok ("velho",
        some { access_token := "velho", expires_in := 21600, token_type := "bearer"
               scope := "nfse", refresh_token := "r1", expires_at := some 600000 }) := by
  constructor
  · rw [ensureValidToken_janela_de_renovacao.2.2.1 _ 600000 _ (by decide)]
    rfl
  · exact ensureValidToken_janela_de_renovacao.2.2.2 _ 0 _ (by decide)

/-- C10: on construction, persisted tokens enter memory exactly when the
stored `expires_at` exists and is strictly in the future; in every other
case the tokens file is deleted and memory stays empty, and with empty
memory every `ensureValidToken` call fails until a new authorization
stores tokens. -/
theorem loadTokens_na_inicializacao :
    (∀ (t : BlingTokens) (now : Int), 0 ≤ now →
      ((loadTokens (some t) now).1 = some t ↔ ∃ e, t.expires_at = some e ∧ now < e)) ∧
    (∀ (t : BlingTokens) (now : Int), 0 ≤ now →
      (¬ ∃ e, t.expires_at = some e ∧ now < e) →
      loadTokens (some t) now = (none, none)) ∧
    (∀ (now : Int) (grant : Except String BlingTokens),
      ensureValidToken none now grant =
        Except.error "Nenhum token disponível. Realize a autenticação primeiro.") := by
  refine ⟨?_, ?_, ?_⟩
  · intro t now hnow
    rcases he : t.expires_at with - | e
    · simp [loadTokens, he]
    · by_cases h0 : e ≠ 0 ∧ now < e
      · simp only [loadTokens, he, if_pos h0]
        simp only [Option.some.injEq, true_iff]
        exact ⟨e, rfl, h0.2⟩
      · simp only [loadTokens, he, if_neg h0]
        simp only [ne_eq, not_and_or, not_not] at h0
        constructor
        · intro h; exact absurd h (by simp)
        · rintro ⟨e2, he2, hlt⟩
          cases he2
          rcases h0 with h0 | h0
          · omega
          · omega
  · intro t now hnow h
    rcases he : t.expires_at with - | e
    · simp [loadTokens, he]
    · simp only [loadTokens, he]
      rw [if_neg]
      rintro ⟨-, hlt⟩
      exact h ⟨e, he, hlt⟩
  · intro now grant
    rfl

/-- Witness for C10: a token stored with `expires_at` in the past is
dropped and the file deleted; the subsequent `ensureValidToken` fails. -/
theorem loadTokens_na_inicializacao_witness :
    loadTokens
      (some { access_token := "a", expires_in := 21600, token_type := "bearer"
              scope := "nfse", refresh_token := "r", expires_at := some 1000 })
      5000 = (none, none) ∧
    ensureValidToken none 5000 (Except.error "nunca chamado") =
      Except.error "Nenhum token disponível. Realize a autenticação primeiro." := by
  constructor
  · exact loadTokens_na_inicializacao.2.1 _ 5000 (by decide)
      (by rintro ⟨e, he, hlt⟩; cases he; omega)
  · exact loadTokens_na_inicializacao.2.2 5000 _

/-- C9: the CPF search never propagates a failure — the 30s timeout, a
non-OK HTTP response, any other thrown error (an `ensureValidToken`
failure included) and the no-exact-match outcome all produce the same
`null`; and contact resolution treats that `null` as "not found",
proceeding to create a new contact and read its full profile. -/
theorem buscarContatoPorCPF_nunca_lanca :
    (∀ (tok : Except String String) (cpf : Str),
      buscarContatoPorCPF tok FetchOutcome.timeout cpf = none) ∧
    (∀ (tok : Except String String) (cpf : Str) (status : Nat) (body : String),
      buscarContatoPorCPF tok (FetchOutcome.httpErr status body) cpf = none) ∧
    (∀ (tok : Except String String) (cpf : Str) (msg : String),
      buscarContatoPorCPF tok (FetchOutcome.netErr msg) cpf = none) ∧
    (∀ (msg : String) (resp : FetchOutcome ContatosPagina) (cpf : Str),
      buscarContatoPorCPF (Except.error msg) resp cpf = none) ∧
    (∀ (tok : Except String String) (cpf : Str) (page : ContatosPagina),
      (∀ c ∈ page.data,
        ¬ (strTruthy c.numeroDocumento = true ∧
            stripNonDigits (c.numeroDocumento.getD []) = cpf)) →
      buscarContatoPorCPF tok (FetchOutcome.ok page) cpf = none) ∧
    (∀ (cpfBruto : Str) (buscaPorCpf : Str → Option ContatoResumo)
        (criarOutcome : Except String ContatoResumo)
        (detalhesDe : Nat → Option ContatoDetalhes),
      (stripNonDigits cpfBruto).isEmpty = false →
      buscaPorCpf (stripNonDigits cpfBruto) = none →
      verificarOuCriarContato (some cpfBruto) buscaPorCpf criarOutcome detalhesDe =
        match criarOutcome with
        | Except.error e => Except.error e
        | Except.ok novoContato =>
          match detalhesDe novoContato.id with
          | none => Except.error "Não foi possível obter os dados completos do contato"
          | some dadosCompletos => Except.ok dadosCompletos) := by
  refine ⟨?_, ?_, ?_, ?_, ?_, ?_⟩
  · intro tok cpf; cases tok <;> rfl
  · intro tok cpf status body; cases tok <;> rfl
  · intro tok cpf msg; cases tok <;> rfl
  · intro msg resp cpf; rfl
  · intro tok cpf page h
    cases tok with
    | error _ => rfl
    | ok _ =>
      simp only [buscarContatoPorCPF]
      have hfind : page.data.find? (fun c =>
          strTruthy c.numeroDocumento &&
            decide (stripNonDigits (c.numeroDocumento.getD []) = cpf)) = none := by
        rw [List.find?_eq_none]
        intro c hc
        have := h c hc
        simp only [Bool.and_eq_true, decide_eq_true_eq]
        intro hcontra
        exact this ⟨hcontra.1, hcontra.2⟩
      rw [hfind]
      split <;> rfl
  · intro cpfBruto buscaPorCpf criarOutcome detalhesDe hne hbusca
    simp only [verificarOuCriarContato, Option.map]
    rw [if_neg (by simp [hne]), hbusca]
    cases criarOutcome with
    | error e => rfl
    | ok novo => rfl

/-- Witness for C9: with an empty search page each failure mode yields
`null`, and a resolution over a failing search creates the contact and
returns its freshly fetched profile. -/
theorem buscarContatoPorCPF_nunca_lanca_witness :
    buscarContatoPorCPF (Except.ok "tok") FetchOutcome.timeout ("12345678901".data) = none ∧
    buscarContatoPorCPF (Except.ok "tok") (FetchOutcome.httpErr 429 "rate limit")
      ("12345678901".data) = none ∧
    buscarContatoPorCPF (Except.ok "tok")
      (FetchOutcome.ok { data := [{ id := 3, nome := "Outro".data
                                    numeroDocumento := some "99999999999".data }] })
      ("12345678901".data) = none ∧
    verificarOuCriarContato (some ("123.456.789-01".data)) (fun _ => none)
      (Except.ok { id := 8, nome := "Novo".data, numeroDocumento := none })
      (fun i => if i = 8 then
          some { id := 8, nome := "Novo".data, numeroDocumento := none
                 cpfCnpj := none, email := none, celular := none }
        else none) =
      Except.ok { id := 8, nome := "Novo".data, numeroDocumento := none
                  cpfCnpj := none, email := none, celular := none } := by
  refine ⟨?_, ?_, ?_, ?_⟩
  · exact buscarContatoPorCPF_nunca_lanca.1 _ _
  · exact buscarContatoPorCPF_nunca_lanca.2.1 _ _ _ _
  · exact buscarContatoPorCPF_nunca_lanca.2.2.2.2.1 _ _ _ (by decide)
  · rw [buscarContatoPorCPF_nunca_lanca.2.2.2.2.2 _ _ _ _ (by decide) rfl]
    rfl

/-- C6: `isConsumidorFinal` is true exactly when the order has no
contact, a falsy tax document, or a document whose digit-stripped form
has fewer than 11 characters; and every such order is classified
`ignorado` by generate, leaving the store untouched. -/
theorem isConsumidorFinal_exato :
    (∀ (pedido : Pedido),
      isConsumidorFinal pedido = true ↔
        (pedido.contato = none ∨
          ∃ c, pedido.contato = some c ∧
            (strTruthy c.numeroDocumento = false ∨
              (stripNonDigits (c.numeroDocumento.getD [])).length < 11))) ∧
    (∀ (env : GerarEnv) (store : List RpsRow) (pedidoId : Nat) (pedido : Pedido),
      env.pedidoDe pedidoId = Except.ok pedido →
      isConsumidorFinal pedido = true →
      (processarPedido env store pedidoId).1.status = "ignorado" ∧
      (processarPedido env store pedidoId).1.mensagem =
        "Pedido é consumidor final - RPS não será gerado" ∧
      (processarPedido env store pedidoId).2 = store) := by
  constructor
  · intro pedido
    rcases hc : pedido.contato with - | c
    · constructor
      · intro _
        exact Or.inl rfl
      · intro _
        simp [isConsumidorFinal, hc]
    · have hP : ((some c : Option ContatoPedido) = none ∨ ∃ c2, (some c : Option ContatoPedido) = some c2 ∧
          (strTruthy c2.numeroDocumento = false ∨
            (stripNonDigits (c2.numeroDocumento.getD [])).length < 11)) ↔
          (strTruthy c.numeroDocumento = false ∨
            (stripNonDigits (c.numeroDocumento.getD [])).length < 11) := by
        constructor
        · rintro (hnone | ⟨c2, hc2, hp⟩)
          · exact absurd hnone (by simp)
          · injection hc2 with h2
            subst h2
            exact hp
        · intro hp
          exact Or.inr ⟨c, rfl, hp⟩
      rw [hP]
      simp only [isConsumidorFinal, hc]
      by_cases hdoc : strTruthy c.numeroDocumento
      · simp only [hdoc, Bool.not_true, Bool.false_eq_true, if_false]
        by_cases hlen : (stripNonDigits (c.numeroDocumento.getD [])).length < 11
        · have hcond : ((stripNonDigits (c.numeroDocumento.getD [])).isEmpty
              || decide ((stripNonDigits (c.numeroDocumento.getD [])).length < 11)) = true := by
            simp [hlen]
          simp [hcond, hlen]
        · have hne2 : (stripNonDigits (c.numeroDocumento.getD [])).isEmpty = false := by
            rcases hemp : stripNonDigits (c.numeroDocumento.getD []) with - | ⟨a, t⟩
            · rw [hemp] at hlen
              exact absurd (by norm_num) hlen
            · rfl
          have hcond : ((stripNonDigits (c.numeroDocumento.getD [])).isEmpty
              || decide ((stripNonDigits (c.numeroDocumento.getD [])).length < 11)) = false := by
            simp [hne2, hlen]
          simp [hcond, hlen, hdoc]
          intro h0
          rw [h0] at hlen
          exact hlen (by norm_num)
      · have hdoc2 : strTruthy c.numeroDocumento = false := by
          revert hdoc
          cases strTruthy c.numeroDocumento <;> simp
        simp [hdoc2]
  · intro env store pedidoId pedido hped hcf
    simp [processarPedido, hped, processarPedidoCarregado, hcf]

/-- Witness for C6 at a concrete order: a document of 10 digits is
consumer-final and generate ignores the order. -/
theorem isConsumidorFinal_exato_witness :
    isConsumidorFinal
      { id := 3, numero := 77, situacaoId := some 9
        contato := some { id := 1, numeroDocumento := some "123.456.789-0".data }
        itens := [] } = true ∧
    (processarPedido
      { pedidoDe := fun _ => Except.ok
          { id := 3, numero := 77, situacaoId := some 9
            contato := some { id := 1, numeroDocumento := some "123.456.789-0".data }
            itens := [] }
        contatoDe := fun _ => none
        produtoDe := fun _ => Except.error "offline"
        emitirNFSe := fun _ => Except.error "offline"
        randFor := fun _ => 0
        hoje := [] }
      [] 3).1.status = "ignorado" := by
  constructor
  · decide
  · exact (isConsumidorFinal_exato.2 _ [] 3 _ rfl (by decide)).1

/-- When no line item yields a retained service (the product fetch fails
or the product is not of type `S`), the accumulated service list stays
empty. -/
theorem filtrarServicos_eq_nil (produtoDe : Nat → Except String Produto)
    (itens : List ItemPedido)
    (h : ∀ item ∈ itens, ∀ prod, produtoDe item.produtoId = Except.ok prod →
      ¬ prod.tipo = "S".data) :
    filtrarServicos produtoDe itens = [] := by
  have geral : ∀ (l : List ItemPedido),
      (∀ item ∈ l, ∀ prod, produtoDe item.produtoId = Except.ok prod →
        ¬ prod.tipo = "S".data) →
      ∀ (acc : List Servico),
        l.foldl (fun acc item =>
          match produtoDe item.produtoId with
          | Except.error _ => acc
          | Except.ok produto =>
            if produto.tipo = "S".data then
              acc ++ [{ descricao := jsOrStr produto.descricao item.descricao
                        valor := valorDoItem item }]
            else acc) acc = acc := by
    intro l
    induction l with
    | nil => intro _ acc; rfl
    | cons item resto ih =>
      intro hl acc
      simp only [List.foldl_cons]
      rcases hprod : produtoDe item.produtoId with e | prod
      · exact ih (fun i hi => hl i (List.mem_cons_of_mem _ hi)) acc
      · show List.foldl _
          (if prod.tipo = "S".data then
            acc ++ [{ descricao := jsOrStr prod.descricao item.descricao
                      valor := valorDoItem item }]
          else acc) resto = acc
        rw [if_neg (hl item (List.mem_cons_self _ _) prod hprod)]
        exact ih (fun i hi => hl i (List.mem_cons_of_mem _ hi)) acc
  exact geral itens h []

/-- An order that is not consumer-final has a contact. -/
theorem contato_de_nao_consumidor (pedido : Pedido)
    (h : isConsumidorFinal pedido = false) : ∃ c, pedido.contato = some c := by
  rcases hc : pedido.contato with - | c
  · rw [isConsumidorFinal, hc] at h
    exact absurd h (by simp)
  · exact ⟨c, rfl⟩

/-- C7: an eligible, non-duplicate order none of whose line items yields
a retained service line — a failed product fetch included — is
classified `ignorado` with the no-services message, never `erro`, and no
row is inserted. -/
theorem gerar_sem_servicos_ignorado :
    ∀ (env : GerarEnv) (store : List RpsRow) (pedidoId : Nat) (pedido : Pedido),
      env.pedidoDe pedidoId = Except.ok pedido →
      isConsumidorFinal pedido = false →
      buscarPorPedidoId store (natStr pedidoId) = none →
      (∀ item ∈ pedido.itens, ∀ prod,
        env.produtoDe item.produtoId = Except.ok prod → ¬ prod.tipo = "S".data) →
      (processarPedido env store pedidoId).1.status = "ignorado" ∧
      (processarPedido env store pedidoId).1.mensagem = "Pedido não contém serviços" ∧
      (processarPedido env store pedidoId).2 = store := by
  intro env store pedidoId pedido hped hcf hbusca hitens
  obtain ⟨c, hc⟩ := contato_de_nao_consumidor pedido hcf
  have hserv : filtrarServicos env.produtoDe pedido.itens = [] :=
    filtrarServicos_eq_nil env.produtoDe pedido.itens hitens
  simp [processarPedido, hped, processarPedidoCarregado, hcf, hbusca, hc, hserv]

/-- The order of the C7 witness: two line items, neither yielding a
billable service. -/
def c7Pedido : Pedido :=
  { id := 11, numero := 300, situacaoId := some 9
    contato := some { id := 4, numeroDocumento := some "390.533.447-05".data }
    itens := [{ produtoId := 1, descricao := none, valor := some 50, valorUnidade := none },
              { produtoId := 2, descricao := none, valor := some 60, valorUnidade := none }] }

/-- The environment of the C7 witness: the first product fetch fails,
the second returns a good (`tipo = 'P'`). -/
def c7Env : GerarEnv :=
  { pedidoDe := fun _ => Except.ok c7Pedido
    contatoDe := fun _ => none
    produtoDe := fun produtoId =>
      if produtoId = 1 then Except.error "HTTP 500"
      else Except.ok { tipo := "P".data, descricao := none }
    emitirNFSe := fun _ => Except.error "nunca chamado"
    randFor := fun _ => 0
    hoje := [] }

/-- Witness for C7: the order above ends `ignorado` with the
no-services message and the store stays empty. -/
theorem gerar_sem_servicos_ignorado_witness :
    (processarPedido c7Env [] 11).1.status = "ignorado" ∧
    (processarPedido c7Env [] 11).1.mensagem = "Pedido não contém serviços" ∧
    (processarPedido c7Env [] 11).2 = [] := by
  exact gerar_sem_servicos_ignorado c7Env [] 11 c7Pedido rfl (by decide) (by decide)
    (by
      intro item hitem prod hprod htipo
      simp only [c7Pedido, List.mem_cons, List.not_mem_nil, or_false] at hitem
      rcases hitem with rfl | rfl
      · simp only [c7Env, if_pos] at hprod
        exact Except.noConfusion hprod
      · simp only [c7Env] at hprod
        rw [if_neg (by decide)] at hprod
        injection hprod with h2
        rw [← h2] at htipo
        exact absurd htipo (by decide))

/-! ## Digit strings: length and digit-character lemmas for C8 -/

/-- `natStrAux` has at most `d` characters when the number is below
`10 ^ d` (for positive `d` and sufficient fuel). -/
theorem natStrAux_length_le (fuel : Nat) :
    ∀ (n d : Nat), n < fuel → 1 ≤ d → n < 10 ^ d →
      (natStrAux fuel n).length ≤ d := by
  induction fuel with
  | zero => intro n d h; omega
  | succ fuel ih =>
    intro n d hfuel hd hpow
    by_cases h10 : n < 10
    · simp only [natStrAux, if_pos h10, List.length_singleton]
      omega
    · simp only [natStrAux, if_neg h10, List.length_append, List.length_singleton]
      have hd2 : 2 ≤ d := by
        by_contra hcon
        have : d = 1 := by omega
        rw [this] at hpow
        simp at hpow
        omega
      have hdiv : n / 10 < 10 ^ (d - 1) := by
        rw [Nat.div_lt_iff_lt_mul (by norm_num)]
        calc n < 10 ^ d := hpow
        _ = 10 ^ (d - 1) * 10 := by
          rw [← pow_succ]
          congr 1
          omega
      have hfuel2 : n / 10 < fuel := by
        have : n / 10 < n := Nat.div_lt_self (by omega) (by norm_num)
        omega
      have := ih (n / 10) (d - 1) hfuel2 (by omega) hdiv
      omega

/-- `natStr n` has at most `d` characters when `n < 10 ^ d`, `1 ≤ d`. -/
theorem natStr_length_le (n d : Nat) (hd : 1 ≤ d) (hpow : n < 10 ^ d) :
    (natStr n).length ≤ d :=
  natStrAux_length_le (n + 1) n d (by omega) hd hpow

/-- `Nat.digitChar` of a value below 10 is a decimal digit. -/
theorem digitChar_isDigit (n : Nat) (h : n < 10) : (Nat.digitChar n).isDigit = true := by
  interval_cases n <;> decide

/-- Every character of `natStrAux` is a decimal digit. -/
theorem natStrAux_isDigit (fuel : Nat) :
    ∀ (n : Nat), ∀ c ∈ natStrAux fuel n, c.isDigit = true := by
  induction fuel with
  | zero => intro n c hc; simp [natStrAux] at hc
  | succ fuel ih =>
    intro n c hc
    by_cases h10 : n < 10
    · simp only [natStrAux, if_pos h10, List.mem_singleton] at hc
      rw [hc]
      exact digitChar_isDigit n h10
    · simp only [natStrAux, if_neg h10, List.mem_append, List.mem_singleton] at hc
      rcases hc with hc | hc
      · exact ih (n / 10) c hc
      · rw [hc]
        exact digitChar_isDigit (n % 10) (Nat.mod_lt n (by norm_num))

/-- Every character of `natStr` is a decimal digit. -/
theorem natStr_isDigit (n : Nat) : ∀ c ∈ natStr n, c.isDigit = true :=
  natStrAux_isDigit (n + 1) n

/-- Length of a zero-pad: exactly `n` when the string is no longer. -/
theorem padStartZeros_length (s : Str) (n : Nat) (h : s.length ≤ n) :
    (padStartZeros s n).length = n := by
  simp only [padStartZeros, List.length_append, List.length_replicate]
  omega

/-- Every character of a zero-pad of a digit string is a digit. -/
theorem padStartZeros_isDigit (s : Str) (n : Nat) (h : ∀ c ∈ s, c.isDigit = true) :
    ∀ c ∈ padStartZeros s n, c.isDigit = true := by
  intro c hc
  simp only [padStartZeros, List.mem_append, List.mem_replicate] at hc
  rcases hc with hc | hc
  · rw [hc.2]; decide
  · exact h c hc

/-- C8 counterexample: in `criarDadosNFSe` (the duplicata flow, one of
the two cited RPS-number sites), a duplicata numbered "42" with no
pre-existing RPS number gets the 15-character timestamp concatenation,
not an 8-digit string — the "always exactly 8 digits" part of the claim
fails there. -/
theorem rps_numero_criarDadosNFSe_nao_8_digitos :
    (rpsNumeroCriarDadosNFSe none ("42".data) 1700000000000).length = 15 ∧
    (rpsNumeroCriarDadosNFSe none ("42".data) 1700000000000).length ≠ 8 := by
  constructor <;> decide

/-- C8 amended: in `construirPayloadNFSe` (the generate flow) the RPS
number for an order number of at most 8 digits is exactly 8 digit
characters — the order number followed by the zero-padded random suffix
filling the remaining positions; `criarDadosNFSe` (the duplicata flow)
reuses a non-empty pre-existing RPS number unchanged (after trimming),
and otherwise generates the timestamp-prefixed concatenation, which is
not 8 digits in general. -/
theorem rps_numero_gerado :
    (∀ (numeroPedido : Str) (rand : Nat),
      (∀ c ∈ numeroPedido, c.isDigit = true) →
      1 ≤ numeroPedido.length →
      numeroPedido.length ≤ 8 →
      rand < 10 ^ (8 - numeroPedido.length) →
      (gerarNumeroRPS numeroPedido rand).length = 8 ∧
      (gerarNumeroRPS numeroPedido rand).take numeroPedido.length = numeroPedido ∧
      (numeroPedido.length < 8 →
        (gerarNumeroRPS numeroPedido rand).drop numeroPedido.length =
          padStartZeros (natStr rand) (8 - numeroPedido.length)) ∧
      (∀ c ∈ gerarNumeroRPS numeroPedido rand, c.isDigit = true)) ∧
    (∀ (s : Str) (numeroDup : Str) (ts : Nat),
      jsTrim s = s → s ≠ [] →
      rpsNumeroCriarDadosNFSe (some s) numeroDup ts = s) ∧
    (∀ (rpsCampo : Option Str) (numeroDup : Str) (ts : Nat),
      jsTrim (rpsCampo.getD []) = [] →
      rpsNumeroCriarDadosNFSe rpsCampo numeroDup ts = natStr ts ++ numeroDup) := by
  refine ⟨?_, ?_, ?_⟩
  · intro numeroPedido rand hdig h1 h8 hrand
    by_cases hlt : numeroPedido.length < 8
    · have hpos : (0 : Int) < 8 - (numeroPedido.length : Int) := by omega
      have htoNat : ((8 : Int) - (numeroPedido.length : Int)).toNat = 8 - numeroPedido.length := by
        omega
      have hlenN : (natStr rand).length ≤ 8 - numeroPedido.length :=
        natStr_length_le rand (8 - numeroPedido.length) (by omega) hrand
      have hlenPad : (padStartZeros (natStr rand) (8 - numeroPedido.length)).length =
          8 - numeroPedido.length := padStartZeros_length _ _ hlenN
      have hbody : gerarNumeroRPS numeroPedido rand =
          numeroPedido ++ padStartZeros (natStr rand) (8 - numeroPedido.length) := by
        simp only [gerarNumeroRPS, if_pos hpos, htoNat]
        rw [List.take_of_length_le]
        simp only [List.length_append, hlenPad]
        omega
      rw [hbody]
      refine ⟨?_, ?_, ?_, ?_⟩
      · simp only [List.length_append, hlenPad]
        omega
      · exact List.take_left _ _
      · intro _
        exact List.drop_left _ _
      · intro c hc
        rcases List.mem_append.1 hc with hc | hc
        · exact hdig c hc
        · exact padStartZeros_isDigit _ _ (natStr_isDigit rand) c hc
    · have h8eq : numeroPedido.length = 8 := by omega
      have hbody : gerarNumeroRPS numeroPedido rand = numeroPedido := by
        simp only [gerarNumeroRPS, if_neg (by omega : ¬ (0 : Int) < 8 - (numeroPedido.length : Int))]
        rw [List.append_nil, ← h8eq, List.take_length]
      rw [hbody]
      refine ⟨h8eq, ?_, ?_, hdig⟩
      · rw [List.take_length]
      · intro h; omega
  · intro s numeroDup ts htrim hne
    simp only [rpsNumeroCriarDadosNFSe, Option.getD_some, htrim]
    rw [if_pos]
    rcases s with - | ⟨a, t⟩
    · exact absurd rfl hne
    · simp
  · intro rpsCampo numeroDup ts htrim
    simp only [rpsNumeroCriarDadosNFSe, htrim, List.length_nil]
    rw [if_neg (by omega)]

/-- Witness for C8: order number "42" with random draw 90 yields the
8-digit RPS number "42000090"; a supplied RPS number "777" is reused
unchanged; and with no supplied number the duplicata flow produces the
timestamp concatenation. -/
theorem rps_numero_gerado_witness :
    gerarNumeroRPS ("42".data) 90 = "42000090".data ∧
    rpsNumeroCriarDadosNFSe (some ("777".data)) ("42".data) 1700000000000 = "777".data ∧
    rpsNumeroCriarDadosNFSe none ("42".data) 1700000000000 = natStr 1700000000000 ++ "42".data := by
  refine ⟨?_, ?_, ?_⟩
  · have h := (rps_numero_gerado.1 ("42".data) 90 (by decide) (by decide) (by decide) (by decide)).2.1
    have hlen := (rps_numero_gerado.1 ("42".data) 90 (by decide) (by decide) (by decide) (by decide)).1
    decide
  · exact rps_numero_gerado.2.1 ("777".data) ("42".data) 1700000000000 (by decide) (by decide)
  · exact rps_numero_gerado.2.2 none ("42".data) 1700000000000 (by decide)

/-! ## Store lemmas shared by the submit and sync proofs -/

/-- `aplicarUpdate` never changes the primary key. -/
theorem aplicarUpdate_id (u : RpsUpdate) (r : RpsRow) : (aplicarUpdate u r).id = r.id := rfl

/-- `aplicarUpdate` never changes the order id. -/
theorem aplicarUpdate_pedidoVendaId (u : RpsUpdate) (r : RpsRow) :
    (aplicarUpdate u r).pedidoVendaId = r.pedidoVendaId := rfl

/-- Looking a row up after an `atualizar` on the same key finds the
updated row. -/
theorem buscarPorId_atualizar (store : List RpsRow) (id : Nat) (u : RpsUpdate) :
    buscarPorId (atualizar store id u) id = (buscarPorId store id).map (aplicarUpdate u) := by
  have hgen : ∀ (l : List RpsRow),
      (l.map (fun r => if r.id = id then aplicarUpdate u r else r)).find?
          (fun r => decide (r.id = id)) =
        (l.find? (fun r => decide (r.id = id))).map
          (fun r => if r.id = id then aplicarUpdate u r else r) := by
    intro l
    induction l with
    | nil => rfl
    | cons r resto ih =>
      by_cases hid : r.id = id
      · rw [List.map_cons,
          List.find?_cons_of_pos _ (by simp [aplicarUpdate, hid]),
          List.find?_cons_of_pos _ (by simp [hid])]
        rfl
      · rw [List.map_cons,
          List.find?_cons_of_neg _ (by simp [aplicarUpdate, hid]),
          List.find?_cons_of_neg _ (by simp [hid])]
        exact ih
  show (atualizar store id u).find? (fun r => decide (r.id = id)) = _
  rw [atualizar, hgen]
  simp only [buscarPorId]
  cases hfound : store.find? (fun r => decide (r.id = id)) with
  | none => rfl
  | some r0 =>
    have hr0 := List.find?_some hfound
    simp only [Option.map]
    rw [if_pos (by simpa using hr0)]

/-- Composing two partial updates on the same key. -/
theorem aplicarUpdate_aplicarUpdate (u v : RpsUpdate) (r : RpsRow) :
    aplicarUpdate v (aplicarUpdate u r) =
      aplicarUpdate
        { status := (v.status.orElse fun _ => u.status)
          numeroNFSe := (v.numeroNFSe.orElse fun _ => u.numeroNFSe)
          mensagemErro := (v.mensagemErro.orElse fun _ => u.mensagemErro) } r := by
  rcases v with ⟨vs, vn, vm⟩
  rcases vs <;> rcases vn <;> rcases vm <;> rfl

/-- C4: whenever the submit call for a record that has an external
invoice id throws, the compensating read decides the outcome: a read
showing `situacao = 2` or a present number turns the record into
`emitido` carrying that number (`|| null`) with a `sucesso` result; a
failed read or a not-issued read sets the record to `erro` with the
error message, and only then. -/
theorem envio_compensacao :
    ∀ (env : EnvioEnv) (store : List RpsRow) (rpsId : Nat) (rps : RpsRow) (e : String),
      buscarPorId store rpsId = some rps →
      strTruthy rps.nfseId = true →
      env.enviarDe (rps.nfseId.getD []) = Except.error e →
      ((∀ d, env.consultarDe (rps.nfseId.getD []) = Except.ok (some d) →
        (d.situacao = some 2 ∨ strTruthy d.numero = true) →
        (processarEnvio env store rpsId).1.status = "sucesso" ∧
        (processarEnvio env store rpsId).1.numeroNFSe = d.numero ∧
        buscarPorId (processarEnvio env store rpsId).2.1 rpsId =
          some { rps with status := "emitido", numeroNFSe := jsOrNull d.numero }) ∧
      (((∃ e2, env.consultarDe (rps.nfseId.getD []) = Except.error e2) ∨
          env.consultarDe (rps.nfseId.getD []) = Except.ok none ∨
          (∃ d, env.consultarDe (rps.nfseId.getD []) = Except.ok (some d) ∧
            ¬ d.situacao = some 2 ∧ strTruthy d.numero = false)) →
        (processarEnvio env store rpsId).1.status = "erro" ∧
        (processarEnvio env store rpsId).1.mensagem = e ∧
        buscarPorId (processarEnvio env store rpsId).2.1 rpsId =
          some { rps with status := "erro", mensagemErro := some e })) := by
  intro env store rpsId rps e hbusca htruthy henv
  constructor
  · intro d hcons hissued
    have hgoal : (processarEnvio env store rpsId) =
        ({ rpsId := rpsId, status := "sucesso", numeroNFSe := d.numero
           mensagem := "NFSe já estava emitida no Bling" },
         atualizar (atualizar store rpsId { status := some "processando" }) rpsId
           { status := some "emitido", numeroNFSe := some (jsOrNull d.numero) },
         true) := by
      simp only [processarEnvio, hbusca, htruthy, Bool.not_true, Bool.false_eq_true,
        if_false, henv, hcons, if_pos hissued]
    rw [hgoal]
    refine ⟨rfl, rfl, ?_⟩
    rw [buscarPorId_atualizar, buscarPorId_atualizar, hbusca]
    simp only [Option.map]
    rw [aplicarUpdate_aplicarUpdate]
    rcases rps with ⟨i, pv, np, nr, se, nf, nn, st, me, vt, nc⟩
    rfl
  · intro hfalha
    have hgoal : (processarEnvio env store rpsId) =
        ({ rpsId := rpsId, status := "erro", numeroNFSe := none, mensagem := e },
         atualizar (atualizar store rpsId { status := some "processando" }) rpsId
           { status := some "erro", mensagemErro := some (some e) },
         false) := by
      rcases hfalha with ⟨e2, hcons⟩ | hcons | ⟨d, hcons, hsit, hnum⟩
      · simp only [processarEnvio, hbusca, htruthy, Bool.not_true, Bool.false_eq_true,
          if_false, henv, hcons]
      · simp only [processarEnvio, hbusca, htruthy, Bool.not_true, Bool.false_eq_true,
          if_false, henv, hcons]
      · simp only [processarEnvio, hbusca, htruthy, Bool.not_true, Bool.false_eq_true,
          if_false, henv, hcons]
        rw [if_neg]
        rintro (h | h)
        · exact hsit h
        · rw [hnum] at h
          exact Bool.false_ne_true h
    rw [hgoal]
    refine ⟨rfl, rfl, ?_⟩
    rw [buscarPorId_atualizar, buscarPorId_atualizar, hbusca]
    simp only [Option.map]
    rw [aplicarUpdate_aplicarUpdate]
    rcases rps with ⟨i, pv, np, nr, se, nf, nn, st, me, vt, nc⟩
    rfl

/-- The record of the C4 witness: a `pendente` row with external
invoice id 9. -/
def c4Row : RpsRow :=
  { id := 1, pedidoVendaId := "10".data, numeroPedido := "42".data, numeroRPS := none
    serie := none, nfseId := some "9".data, numeroNFSe := none, status := "pendente"
    mensagemErro := none, valorTotal := 0, nomeCliente := [] }

/-- Witness for C4 (the spec's scenario): submit times out but the
compensating read shows the invoice settled with number "000123"; the
record ends `emitido` with that number and the result is `sucesso`. -/
theorem envio_compensacao_witness :
    (processarEnvio
      { enviarDe := fun _ => Except.error "Timeout: 120 segundos"
        consultarDe := fun _ => Except.ok (some { situacao := some 2, numero := some "000123".data }) }
      [c4Row] 1).1.status = "sucesso" ∧
    (processarEnvio
      { enviarDe := fun _ => Except.error "Timeout: 120 segundos"
        consultarDe := fun _ => Except.ok (some { situacao := some 2, numero := some "000123".data }) }
      [c4Row] 1).1.numeroNFSe = some ("000123".data) ∧
    buscarPorId (processarEnvio
      { enviarDe := fun _ => Except.error "Timeout: 120 segundos"
        consultarDe := fun _ => Except.ok (some { situacao := some 2, numero := some "000123".data }) }
      [c4Row] 1).2.1 1 =
      some { c4Row with status := "emitido", numeroNFSe := some ("000123".data) } := by
  have h := (envio_compensacao
    { enviarDe := fun _ => Except.error "Timeout: 120 segundos"
      consultarDe := fun _ => Except.ok (some { situacao := some 2, numero := some "000123".data }) }
    [c4Row] 1 c4Row "Timeout: 120 segundos" (by decide) (by decide) rfl).1
    { situacao := some 2, numero := some "000123".data } rfl (Or.inl rfl)
  exact ⟨h.1, h.2.1, h.2.2⟩

/-! ## C3: generate and the cancelled situation code -/

/-- The order of the C3 counterexample: situation code 2 (cancelled),
a customer with a full 11-digit CPF, one service line. -/
def c3Pedido : Pedido :=
  { id := 5, numero := 42, situacaoId := some 2
    contato := some { id := 7, numeroDocumento := some "123.456.789-01".data }
    itens := [{ produtoId := 1, descricao := some "Mensalidade".data
                valor := some 100, valorUnidade := none }] }

/-- The environment of the C3 counterexample: every external call
succeeds; the product is a service. -/
def c3Env : GerarEnv :=
  { pedidoDe := fun _ => Except.ok c3Pedido
    contatoDe := fun _ => some
      { id := 7, nome := "Fulano".data, numeroDocumento := some "12345678901".data
        cpfCnpj := none, email := none, celular := none }
    produtoDe := fun _ => Except.ok { tipo := "S".data, descricao := none }
    emitirNFSe := fun _ => Except.ok { id := 99, numeroRPS := none, serie := none }
    randFor := fun _ => 0
    hoje := [] }

/-- C3 counterexample: a cancelled order (situation code 2) run through
the generate batch is classified `sucesso`, not `ignorado` — the
backend generate path never inspects the situation code. -/
theorem gerar_pedido_cancelado_sucesso :
    c3Pedido.situacaoId = some 2 ∧
    (gerarRPSParaPedidos c3Env [] [5]).1.map (fun r => r.status) = ["sucesso"] := by
  constructor
  · rfl
  · decide

/-- C3 amended: the backend generate operation is invariant under the
order's situation code (it never inspects it, so a cancelled order is
classified by the ordinary rules and can end `sucesso`); cancelled
orders are instead removed client-side by the order-list filter, which
never lets an order with situation id 2 through. -/
theorem gerar_ignora_situacao :
    (∀ (env : GerarEnv) (store : List RpsRow) (pedidoId : Nat) (pedido : Pedido)
        (situacao : Option Int),
      processarPedidoCarregado env store pedidoId { pedido with situacaoId := situacao } =
        processarPedidoCarregado env store pedidoId pedido) ∧
    (∀ (numeroInicial : Option Int) (pedidos : List PedidoResumo) (p : PedidoResumo),
      p ∈ filtrarPedidosFrontend numeroInicial pedidos → ¬ p.situacaoId = some 2) := by
  constructor
  · intro env store pedidoId pedido situacao
    rcases pedido with ⟨i, n, s, c, it⟩
    rfl
  · intro numeroInicial pedidos p hp
    have := (List.mem_filter.1 hp).2
    simpa using this

/-- Witness for C3 amended: changing the C3 order's situation code does
not change its generate outcome, and the frontend filter lets a
non-cancelled order through only without situation id 2. -/
theorem gerar_ignora_situacao_witness :
    processarPedidoCarregado c3Env [] 5 { c3Pedido with situacaoId := some 9 } =
      processarPedidoCarregado c3Env [] 5 c3Pedido ∧
    ¬ ({ numero := 42, situacaoId := some 9 } : PedidoResumo).situacaoId = some 2 := by
  constructor
  · exact gerar_ignora_situacao.1 c3Env [] 5 c3Pedido (some 9)
  · exact gerar_ignora_situacao.2 none [{ numero := 42, situacaoId := some 9 }]
      { numero := 42, situacaoId := some 9 } (by decide)

/-! ## C1: idempotency of generate and uniqueness of the order id -/

/-- Appending one row to a store in which a key is absent: the lookup
finds the new row exactly when its key matches. -/
theorem buscarPorPedidoId_append_none (store : List RpsRow) (row : RpsRow) (key : Str)
    (h : buscarPorPedidoId store key = none) :
    buscarPorPedidoId (store ++ [row]) key =
      if row.pedidoVendaId = key then some row else none := by
  induction store with
  | nil =>
    by_cases hr : row.pedidoVendaId = key
    · rw [if_pos hr]
      simp only [List.nil_append, buscarPorPedidoId]
      rw [List.find?_cons_of_pos _ (by simp [hr])]
    · rw [if_neg hr]
      simp only [List.nil_append, buscarPorPedidoId]
      rw [List.find?_cons_of_neg _ (by simp [hr])]
      rfl
  | cons r resto ih =>
    have hhead : ¬ r.pedidoVendaId = key := by
      intro hcon
      rw [buscarPorPedidoId, List.find?_cons_of_pos _ (by simp [hcon])] at h
      exact Option.noConfusion h
    have hresto : buscarPorPedidoId resto key = none := by
      rw [buscarPorPedidoId, List.find?_cons_of_neg _ (by simp [hhead])] at h
      exact h
    rw [List.cons_append, buscarPorPedidoId, List.find?_cons_of_neg _ (by simp [hhead])]
    exact ih hresto

/-- Inversion of `criar`: success means the key was fresh and the row
was appended. -/
theorem criar_ok_inv (store : List RpsRow) (row : RpsRow) (store2 : List RpsRow)
    (h : criar store row = Except.ok store2) :
    store.any (fun r => r.pedidoVendaId = row.pedidoVendaId) = false ∧
    store2 = store ++ [row] := by
  by_cases hany : store.any (fun r => r.pedidoVendaId = row.pedidoVendaId) = true
  · rw [criar, if_pos (by simpa using hany)] at h
    exact Except.noConfusion h
  · rw [criar, if_neg (by simpa using hany)] at h
    injection h with h2
    exact ⟨by simpa using hany, h2.symm⟩

/-- `criar` preserves uniqueness of the order id column. -/
theorem criar_nodup (store : List RpsRow) (row : RpsRow) (store2 : List RpsRow)
    (h : criar store row = Except.ok store2)
    (hN : (store.map (fun r => r.pedidoVendaId)).Nodup) :
    (store2.map (fun r => r.pedidoVendaId)).Nodup := by
  obtain ⟨hany, rfl⟩ := criar_ok_inv store row store2 h
  rw [List.map_append, List.map_singleton]
  rw [List.nodup_append]
  refine ⟨hN, List.nodup_singleton _, ?_⟩
  intro x hx hxr
  rw [List.mem_singleton] at hxr
  subst hxr
  rw [List.mem_map] at hx
  obtain ⟨r, hr, hpr⟩ := hx
  have : store.any (fun r => r.pedidoVendaId = row.pedidoVendaId) = true := by
    rw [List.any_eq_true]
    exact ⟨r, hr, by simp [hpr]⟩
  rw [this] at hany
  exact Bool.noConfusion hany

/-- Inversion of a `sucesso` outcome of the per-order generate body:
the order was fetched, it is not consumer-final, no row for it existed,
and the store gained exactly one row keyed by the order id. -/
theorem processarPedido_sucesso_inv (env : GerarEnv) (store : List RpsRow)
    (pedidoId : Nat) (r : ResultadoGerar) (store2 : List RpsRow)
    (h : processarPedido env store pedidoId = (r, store2))
    (hs : r.status = "sucesso") :
    ∃ pedido novaLinha,
      env.pedidoDe pedidoId = Except.ok pedido ∧
      isConsumidorFinal pedido = false ∧
      buscarPorPedidoId store (natStr pedidoId) = none ∧
      novaLinha.pedidoVendaId = natStr pedidoId ∧
      store2 = store ++ [novaLinha] := by
  rcases hped : env.pedidoDe pedidoId with e | pedido
  · rw [processarPedido] at h
    simp only [hped] at h
    cases h
    simp only [resultadoErro] at hs
    exact absurd hs (by simp)
  · rw [processarPedido] at h
    simp only [hped, processarPedidoCarregado] at h
    by_cases hcf : isConsumidorFinal pedido = true
    · rw [if_pos hcf] at h
      cases h
      exact absurd hs (by simp)
    · rw [if_neg hcf] at h
      have hcf2 : isConsumidorFinal pedido = false := by
        revert hcf
        cases isConsumidorFinal pedido <;> simp
      rcases hbusca : buscarPorPedidoId store (natStr pedidoId) with - | rps0
      · simp only [hbusca] at h
        rcases hcont : pedido.contato with - | cp
        · simp only [hcont] at h
          cases h
          simp only [resultadoErro] at hs
          exact absurd hs (by simp)
        · simp only [hcont] at h
          by_cases hserv : (filtrarServicos env.produtoDe pedido.itens).isEmpty = true
          · rw [if_pos hserv] at h
            cases h
            exact absurd hs (by simp)
          · rw [if_neg hserv] at h
            rcases hdet : env.contatoDe cp.id with - | dados
            · simp only [hdet] at h
              cases h
              simp only [resultadoErro] at hs
              exact absurd hs (by simp)
            · simp only [hdet] at h
              rcases hemit : env.emitirNFSe (construirPayloadNFSe pedido dados
                  (filtrarServicos env.produtoDe pedido.itens) 2222749
                  (env.randFor pedidoId) env.hoje) with e2 | resp
              · simp only [hemit] at h
                cases h
                simp only [resultadoErro] at hs
                exact absurd hs (by simp)
              · simp only [hemit] at h
                rcases hcriar : criar store
                    { id := proximoId store
                      pedidoVendaId := natStr pedidoId
                      numeroPedido := natStr pedido.numero
                      numeroRPS := some ((jsOrStr resp.numeroRPS
                        (some (construirPayloadNFSe pedido dados
                          (filtrarServicos env.produtoDe pedido.itens) 2222749
                          (env.randFor pedidoId) env.hoje).numeroRPS)).getD [])
                      serie := some ((jsOrStr resp.serie
                        (some (construirPayloadNFSe pedido dados
                          (filtrarServicos env.produtoDe pedido.itens) 2222749
                          (env.randFor pedidoId) env.hoje).serie)).getD [])
                      nfseId := some (natStr resp.id)
                      numeroNFSe := none
                      status := "pendente"
                      mensagemErro := none
                      valorTotal := (filtrarServicos env.produtoDe pedido.itens).foldl
                        (fun sum s => sum + s.valor) 0
                      nomeCliente := dados.nome } with e3 | store3
                · simp only [hcriar] at h
                  cases h
                  simp only [resultadoErro] at hs
                  exact absurd hs (by simp)
                · simp only [hcriar] at h
                  cases h
                  obtain ⟨-, hst⟩ := criar_ok_inv _ _ _ hcriar
                  exact ⟨pedido, _, rfl, hcf2, rfl, rfl, hst⟩
      · simp only [hbusca] at h
        cases h
        exact absurd hs (by simp)

/-- `atualizar` leaves the order-id column of every row unchanged. -/
theorem atualizar_map_pvid (store : List RpsRow) (id : Nat) (u : RpsUpdate) :
    (atualizar store id u).map (fun r => r.pedidoVendaId) =
      store.map (fun r => r.pedidoVendaId) := by
  rw [atualizar, List.map_map]
  apply List.map_congr_left
  intro r _
  by_cases h : r.id = id <;> simp [Function.comp, h, aplicarUpdate_pedidoVendaId]

/-- The per-order generate body either leaves the store alone or
performs one `criar` insert. -/
theorem processarPedido_store_cases (env : GerarEnv) (store : List RpsRow)
    (pedidoId : Nat) :
    (processarPedido env store pedidoId).2 = store ∨
    ∃ row, criar store row = Except.ok (processarPedido env store pedidoId).2 := by
  rw [processarPedido]
  rcases hped : env.pedidoDe pedidoId with e | pedido
  · exact Or.inl rfl
  · dsimp only
    simp only [processarPedidoCarregado]
    by_cases hcf : isConsumidorFinal pedido = true
    · rw [if_pos hcf]
      exact Or.inl rfl
    · rw [if_neg hcf]
      rcases hbusca : buscarPorPedidoId store (natStr pedidoId) with - | rps0
      · dsimp only
        rcases hcont : pedido.contato with - | cp
        · exact Or.inl rfl
        · dsimp only
          by_cases hserv : (filtrarServicos env.produtoDe pedido.itens).isEmpty = true
          · rw [if_pos hserv]
            exact Or.inl rfl
          · rw [if_neg hserv]
            rcases hdet : env.contatoDe cp.id with - | dados
            · exact Or.inl rfl
            · dsimp only
              rcases hemit : env.emitirNFSe (construirPayloadNFSe pedido dados
                  (filtrarServicos env.produtoDe pedido.itens) 2222749
                  (env.randFor pedidoId) env.hoje) with e2 | resp
              · exact Or.inl rfl
              · dsimp only
                rcases hcriar : criar store
                    { id := proximoId store
                      pedidoVendaId := natStr pedidoId
                      numeroPedido := natStr pedido.numero
                      numeroRPS := some ((jsOrStr resp.numeroRPS
                        (some (construirPayloadNFSe pedido dados
                          (filtrarServicos env.produtoDe pedido.itens) 2222749
                          (env.randFor pedidoId) env.hoje).numeroRPS)).getD [])
                      serie := some ((jsOrStr resp.serie
                        (some (construirPayloadNFSe pedido dados
                          (filtrarServicos env.produtoDe pedido.itens) 2222749
                          (env.randFor pedidoId) env.hoje).serie)).getD [])
                      nfseId := some (natStr resp.id)
                      numeroNFSe := none
                      status := "pendente"
                      mensagemErro := none
                      valorTotal := (filtrarServicos env.produtoDe pedido.itens).foldl
                        (fun sum s => sum + s.valor) 0
                      nomeCliente := dados.nome } with e3 | store3
                · exact Or.inl rfl
                · exact Or.inr ⟨_, hcriar⟩
      · exact Or.inl rfl

/-- The per-order generate body preserves uniqueness of the order id. -/
theorem processarPedido_nodup (env : GerarEnv) (store : List RpsRow) (pedidoId : Nat)
    (hN : (store.map (fun r => r.pedidoVendaId)).Nodup) :
    (((processarPedido env store pedidoId).2).map (fun r => r.pedidoVendaId)).Nodup := by
  rcases processarPedido_store_cases env store pedidoId with h | ⟨row, h⟩
  · rw [h]; exact hN
  · exact criar_nodup store row _ h hN

/-- The submit body only rewrites rows in place, so the order-id column
is untouched. -/
theorem processarEnvio_map_pvid (env : EnvioEnv) (store : List RpsRow) (rpsId : Nat) :
    (((processarEnvio env store rpsId).2.1).map (fun r => r.pedidoVendaId)) =
      store.map (fun r => r.pedidoVendaId) := by
  rw [processarEnvio]
  rcases h1 : buscarPorId store rpsId with - | rps
  · rfl
  · dsimp only
    by_cases h2 : strTruthy rps.nfseId
    · rw [if_neg (by simp [h2])]
      rcases h3 : env.enviarDe (rps.nfseId.getD []) with e | numeroResposta
      · dsimp only
        rcases h4 : env.consultarDe (rps.nfseId.getD []) with e2 | d
        · simp [atualizar_map_pvid]
        · rcases d with - | d
          · simp [atualizar_map_pvid]
          · dsimp only
            by_cases h5 : d.situacao = some 2 ∨ strTruthy d.numero = true
            · rw [if_pos h5]
              simp [atualizar_map_pvid]
            · rw [if_neg h5]
              simp [atualizar_map_pvid]
      · dsimp only
        by_cases h5 : strTruthy numeroResposta = true
        · rw [if_pos h5]
          simp [atualizar_map_pvid]
        · rw [if_neg h5]
          simp [atualizar_map_pvid]
    · rw [if_pos (by simp [h2])]

/-- The submit batch never changes the order-id column. -/
theorem enviarNFSe_map_pvid (env : EnvioEnv) (store : List RpsRow) (rpsIds : List Nat) :
    (((enviarNFSeParaPrefeitura env store rpsIds).2.1).map (fun r => r.pedidoVendaId)) =
      store.map (fun r => r.pedidoVendaId) := by
  have geral : ∀ (ids : List Nat) (acc : List ResultadoEnvio × List RpsRow × Nat),
      (((ids.foldl (fun acc rpsId =>
        let r := processarEnvio env acc.2.1 rpsId
        (acc.1 ++ [r.1], r.2.1, if r.2.2 then acc.2.2 + 1 else acc.2.2)) acc).2.1).map
          (fun r => r.pedidoVendaId)) = (acc.2.1).map (fun r => r.pedidoVendaId) := by
    intro ids
    induction ids with
    | nil => intro acc; rfl
    | cons id resto ih =>
      intro acc
      rw [List.foldl_cons, ih]
      exact processarEnvio_map_pvid env acc.2.1 id
  exact geral rpsIds ([], store, 0)

/-- One reconciler iteration never changes the order-id column. -/
theorem syncPasso_map_pvid (lk : Str → Except String (Option NfseConsulta))
    (acc : List RpsRow × Nat × Nat) (rps : RpsRow) :
    (((syncPasso lk acc rps).1).map (fun r => r.pedidoVendaId)) =
      (acc.1).map (fun r => r.pedidoVendaId) := by
  rw [syncPasso]
  by_cases h1 : strTruthy rps.nfseId
  · rw [if_neg (by simp [h1])]
    rcases h2 : lk (rps.nfseId.getD []) with e | d
    · dsimp only
      by_cases h3 : rps.status = "emitido" ∧ !strTruthy rps.numeroNFSe
      · rw [if_pos h3]
        simp [atualizar_map_pvid]
      · rw [if_neg h3]
    · rcases d with - | d
      · rfl
      · dsimp only
        by_cases h3 : mapSituacaoNFSe rps.status d.situacao ≠ rps.status ∨
            (strTruthy d.numero ∧ d.numero ≠ rps.numeroNFSe)
        · rw [if_pos h3]
          by_cases h4 : rps.status = "emitido" ∧ !strTruthy rps.numeroNFSe ∧ strTruthy d.numero
          · rw [if_pos h4]
            simp [atualizar_map_pvid]
          · rw [if_neg h4]
            simp [atualizar_map_pvid]
        · rw [if_neg h3]
  · rw [if_pos (by simp [h1])]

/-- The reconciler never changes the order-id column. -/
theorem sincronizar_map_pvid (lk : Str → Except String (Option NfseConsulta))
    (store : List RpsRow) :
    (((sincronizarStatusNFSe lk store).1).map (fun r => r.pedidoVendaId)) =
      store.map (fun r => r.pedidoVendaId) := by
  have geral : ∀ (sel : List RpsRow) (acc : List RpsRow × Nat × Nat),
      (((sel.foldl (syncPasso lk) acc).1).map (fun r => r.pedidoVendaId)) =
        (acc.1).map (fun r => r.pedidoVendaId) := by
    intro sel
    induction sel with
    | nil => intro acc; rfl
    | cons s resto ih =>
      intro acc
      rw [List.foldl_cons, ih]
      exact syncPasso_map_pvid lk acc s
  exact geral (selecionarParaSync store) (store, 0, 0)

/-- The order of the C1 counterexample: no customer reference at all,
so generate classifies it consumer-final. -/
def c1Pedido : Pedido :=
  { id := 7, numero := 70, situacaoId := some 9, contato := none, itens := [] }

/-- The environment of the C1 counterexample. -/
def c1Env : GerarEnv :=
  { pedidoDe := fun _ => Except.ok c1Pedido
    contatoDe := fun _ => none
    produtoDe := fun _ => Except.error "nunca chamado"
    emitirNFSe := fun _ => Except.error "nunca chamado"
    randFor := fun _ => 0
    hoje := [] }

/-- C1 counterexample: for the order above the first generate run yields
`ignorado`, not `sucesso`, and the second run's message is the
consumer-final one, not "RPS já existe para este pedido" — the claim's
universally quantified first-run/second-run pattern fails. -/
theorem gerar_primeira_execucao_nem_sempre_sucesso :
    (gerarRPSParaPedidos c1Env [] [7]).1.map (fun r => r.status) = ["ignorado"] ∧
    ¬ (gerarRPSParaPedidos c1Env [] [7]).1.map (fun r => r.status) = ["sucesso"] ∧
    (gerarRPSParaPedidos c1Env ((gerarRPSParaPedidos c1Env [] [7]).2.1) [7]).1.map
      (fun r => r.mensagem) = ["Pedido é consumidor final - RPS não será gerado"] := by
  refine ⟨by decide, by decide, by decide⟩

/-- C1 amended: whenever a generate batch over one order id ends in
`sucesso`, rerunning the same batch over the same id (with the same
external responses) yields `ignorado` with message "RPS já existe para
este pedido" and leaves the store unchanged; and uniqueness of
`pedidoVendaId` is an invariant preserved by generate, submit and sync
alike (ineligible orders are instead `ignorado`/`erro` on both runs, as
the counterexample shows). -/
theorem gerar_idempotente_e_unicidade :
    (∀ (env : GerarEnv) (store : List RpsRow) (pedidoId : Nat) (r : ResultadoGerar)
        (store2 : List RpsRow) (n : Nat),
      gerarRPSParaPedidos env store [pedidoId] = ([r], store2, n) →
      r.status = "sucesso" →
      ∃ r2, gerarRPSParaPedidos env store2 [pedidoId] = ([r2], store2, 0) ∧
        r2.status = "ignorado" ∧ r2.mensagem = "RPS já existe para este pedido") ∧
    (∀ (env : GerarEnv) (store : List RpsRow) (pedidoIds : List Nat),
      (store.map (fun r => r.pedidoVendaId)).Nodup →
      (((gerarRPSParaPedidos env store pedidoIds).2.1).map
        (fun r => r.pedidoVendaId)).Nodup) ∧
    (∀ (env : EnvioEnv) (store : List RpsRow) (rpsIds : List Nat),
      (store.map (fun r => r.pedidoVendaId)).Nodup →
      (((enviarNFSeParaPrefeitura env store rpsIds).2.1).map
        (fun r => r.pedidoVendaId)).Nodup) ∧
    (∀ (lk : Str → Except String (Option NfseConsulta)) (store : List RpsRow),
      (store.map (fun r => r.pedidoVendaId)).Nodup →
      (((sincronizarStatusNFSe lk store).1).map (fun r => r.pedidoVendaId)).Nodup) := by
  refine ⟨?_, ?_, ?_, ?_⟩
  · intro env store pedidoId r store2 n h hs
    have hp : processarPedido env store pedidoId = (r, store2) := by
      simp only [gerarRPSParaPedidos, List.foldl_cons, List.foldl_nil, List.nil_append,
        Prod.mk.injEq, List.cons.injEq, and_true] at h
      obtain ⟨ha, hb, -⟩ := h
      rw [← ha, ← hb]
    obtain ⟨pedido, novaLinha, hped, hcf, hbusca, hpvid, hst⟩ :=
      processarPedido_sucesso_inv env store pedidoId r store2 hp hs
    subst hst
    have hb2 : buscarPorPedidoId (store ++ [novaLinha]) (natStr pedidoId) = some novaLinha := by
      rw [buscarPorPedidoId_append_none store novaLinha (natStr pedidoId) hbusca, if_pos hpvid]
    have hq : processarPedido env (store ++ [novaLinha]) pedidoId =
        ({ pedidoId := pedidoId, numeroPedido := pedido.numero, status := "ignorado"
           mensagem := "RPS já existe para este pedido"
           numeroRPS := novaLinha.numeroRPS, nfseId := none }, store ++ [novaLinha]) := by
      rw [processarPedido]
      simp only [hped, processarPedidoCarregado]
      rw [if_neg (by simp [hcf]), hb2]
    refine ⟨{ pedidoId := pedidoId, numeroPedido := pedido.numero, status := "ignorado"
              mensagem := "RPS já existe para este pedido"
              numeroRPS := novaLinha.numeroRPS, nfseId := none }, ?_, rfl, rfl⟩
    simp only [gerarRPSParaPedidos, List.foldl_cons, List.foldl_nil, List.nil_append, hq]
    rw [if_neg (by decide)]
  · intro env store pedidoIds hN
    have geral : ∀ (ids : List Nat) (acc : List ResultadoGerar × List RpsRow × Nat),
        ((acc.2.1).map (fun r => r.pedidoVendaId)).Nodup →
        (((ids.foldl (fun acc pedidoId =>
          let r := processarPedido env acc.2.1 pedidoId
          (acc.1 ++ [r.1], r.2,
            if r.1.status = "sucesso" then acc.2.2 + 1 else acc.2.2)) acc).2.1).map
          (fun r => r.pedidoVendaId)).Nodup := by
      intro ids
      induction ids with
      | nil => intro acc hacc; exact hacc
      | cons id resto ih =>
        intro acc hacc
        rw [List.foldl_cons]
        exact ih _ (processarPedido_nodup env acc.2.1 id hacc)
    exact geral pedidoIds ([], store, 0) hN
  · intro env store rpsIds hN
    rw [enviarNFSe_map_pvid]
    exact hN
  · intro lk store hN
    rw [sincronizar_map_pvid]
    exact hN

/-- The order of the C1 witness: eligible, with one service line. -/
def c1PedidoOk : Pedido :=
  { id := 5, numero := 42, situacaoId := some 9
    contato := some { id := 7, numeroDocumento := some "123.456.789-01".data }
    itens := [{ produtoId := 1, descricao := some "Mensalidade".data
                valor := some 100, valorUnidade := none }] }

/-- The environment of the C1 witness: every external call succeeds. -/
def c1EnvOk : GerarEnv :=
  { pedidoDe := fun _ => Except.ok c1PedidoOk
    contatoDe := fun _ => some
      { id := 7, nome := "Fulano".data, numeroDocumento := some "12345678901".data
        cpfCnpj := none, email := none, celular := none }
    produtoDe := fun _ => Except.ok { tipo := "S".data, descricao := none }
    emitirNFSe := fun _ => Except.ok { id := 99, numeroRPS := none, serie := none }
    randFor := fun _ => 0
    hoje := [] }

/-- Witness for C1 amended: the first run over order 5 succeeds; the
theorem then yields the second run's `ignorado` / "RPS já existe para
este pedido" outcome with the store unchanged, and the store after the
first run still has distinct order ids. -/
theorem gerar_idempotente_e_unicidade_witness :
    ((gerarRPSParaPedidos c1EnvOk ((gerarRPSParaPedidos c1EnvOk [] [5]).2.1) [5]).1.map
      (fun r => r.status) = ["ignorado"]) ∧
    ((gerarRPSParaPedidos c1EnvOk ((gerarRPSParaPedidos c1EnvOk [] [5]).2.1) [5]).1.map
      (fun r => r.mensagem) = ["RPS já existe para este pedido"]) ∧
    (((gerarRPSParaPedidos c1EnvOk [] [5]).2.1).map (fun r => r.pedidoVendaId)).Nodup := by
  obtain ⟨r2, heq, hst, hmsg⟩ := gerar_idempotente_e_unicidade.1 c1EnvOk [] 5
    { pedidoId := 5, numeroPedido := 42, status := "sucesso"
      mensagem := "RPS gerado com sucesso", numeroRPS := none, nfseId := some 99 }
    ((gerarRPSParaPedidos c1EnvOk [] [5]).2.1) 1 (by decide) rfl
  refine ⟨?_, ?_, gerar_idempotente_e_unicidade.2.1 c1EnvOk [] [5] (by decide)⟩
  · rw [heq]
    simp [hst]
  · rw [heq]
    simp [hmsg]

/-! ## C2: the reconciler's backward transitions -/

/-- Position of a status in the `pendente → processando → emitido`
chain (`erro` and anything else sit outside, above the chain). -/
def statusRank (s : String) : Nat :=
  if s = "pendente" then 0
  else if s = "processando" then 1
  else if s = "emitido" then 2
  else 3

/-- The write (if any) that one reconciler iteration performs for a
selected snapshot row, together with the corrected-vs-updated flag.
This is a factored view of `syncPasso`; `syncPasso_decision` proves the
two agree. -/
def syncDecision (lk : Str → Except String (Option NfseConsulta)) (rps : RpsRow) :
    Option (RpsUpdate × Bool) :=
  if !strTruthy rps.nfseId then none
  else
    match lk (rps.nfseId.getD []) with
    | Except.ok (some nfse) =>
      if mapSituacaoNFSe rps.status nfse.situacao ≠ rps.status ∨
          (strTruthy nfse.numero ∧ nfse.numero ≠ rps.numeroNFSe) then
        some ({ status := some (mapSituacaoNFSe rps.status nfse.situacao)
                numeroNFSe := some (jsOrStr nfse.numero rps.numeroNFSe) },
          decide (rps.status = "emitido" ∧ !strTruthy rps.numeroNFSe ∧ strTruthy nfse.numero))
      else none
    | Except.ok none => none
    | Except.error _ =>
      if rps.status = "emitido" ∧ !strTruthy rps.numeroNFSe then
        some ({ status := some "pendente"
                mensagemErro := some (some "NFSe não encontrada no Bling - status resetado") },
          true)
      else none

/-- `syncPasso` written through `syncDecision`. -/
theorem syncPasso_decision (lk : Str → Except String (Option NfseConsulta))
    (acc : List RpsRow × Nat × Nat) (rps : RpsRow) :
    syncPasso lk acc rps =
      match syncDecision lk rps with
      | none => acc
      | some (u, true) => (atualizar acc.1 rps.id u, acc.2.1, acc.2.2 + 1)
      | some (u, false) => (atualizar acc.1 rps.id u, acc.2.1 + 1, acc.2.2) := by
  by_cases h1 : strTruthy rps.nfseId
  · rcases h2 : lk (rps.nfseId.getD []) with e | d
    · by_cases h3 : rps.status = "emitido" ∧ !strTruthy rps.numeroNFSe
      · have hdec : syncDecision lk rps =
            some ({ status := some "pendente"
                    mensagemErro := some (some "NFSe não encontrada no Bling - status resetado") },
              true) := by
          rw [syncDecision, if_neg (by simp [h1]), h2]
          dsimp only
          rw [if_pos h3]
        rw [hdec, syncPasso]
        dsimp only
        rw [if_neg (by simp [h1]), h2]
        dsimp only
        rw [if_pos h3]
      · have hdec : syncDecision lk rps = none := by
          rw [syncDecision, if_neg (by simp [h1]), h2]
          dsimp only
          rw [if_neg h3]
        rw [hdec, syncPasso]
        dsimp only
        rw [if_neg (by simp [h1]), h2]
        dsimp only
        rw [if_neg h3]
    · rcases d with - | d
      · have hdec : syncDecision lk rps = none := by
          rw [syncDecision, if_neg (by simp [h1]), h2]
        rw [hdec, syncPasso]
        dsimp only
        rw [if_neg (by simp [h1]), h2]
      · by_cases h3 : mapSituacaoNFSe rps.status d.situacao ≠ rps.status ∨
            (strTruthy d.numero ∧ d.numero ≠ rps.numeroNFSe)
        · by_cases h4 : rps.status = "emitido" ∧ !strTruthy rps.numeroNFSe ∧ strTruthy d.numero
          · have hdec : syncDecision lk rps =
                some ({ status := some (mapSituacaoNFSe rps.status d.situacao)
                        numeroNFSe := some (jsOrStr d.numero rps.numeroNFSe) },
                  true) := by
              rw [syncDecision, if_neg (by simp [h1]), h2]
              dsimp only
              rw [if_pos h3, decide_eq_true h4]
            rw [hdec, syncPasso]
            dsimp only
            rw [if_neg (by simp [h1]), h2]
            dsimp only
            rw [if_pos h3, if_pos h4]
          · have hdec : syncDecision lk rps =
                some ({ status := some (mapSituacaoNFSe rps.status d.situacao)
                        numeroNFSe := some (jsOrStr d.numero rps.numeroNFSe) },
                  false) := by
              rw [syncDecision, if_neg (by simp [h1]), h2]
              dsimp only
              rw [if_pos h3, decide_eq_false h4]
            rw [hdec, syncPasso]
            dsimp only
            rw [if_neg (by simp [h1]), h2]
            dsimp only
            rw [if_pos h3, if_neg h4]
        · have hdec : syncDecision lk rps = none := by
            rw [syncDecision, if_neg (by simp [h1]), h2]
            dsimp only
            rw [if_neg h3]
          rw [hdec, syncPasso]
          dsimp only
          rw [if_neg (by simp [h1]), h2]
          dsimp only
          rw [if_neg h3]
  · have hdec : syncDecision lk rps = none := by
      rw [syncDecision, if_pos (by simp [h1])]
    rw [hdec, syncPasso]
    dsimp only
    rw [if_pos (by simp [h1])]

/-- The effect of processing snapshot `s` on a live row `x`: the write
of `syncDecision lk s` applied when `x` is the row `s` targets. -/
def passoLinha (lk : Str → Except String (Option NfseConsulta)) (s : RpsRow)
    (x : RpsRow) : RpsRow :=
  match syncDecision lk s with
  | some (u, _) => if x.id = s.id then aplicarUpdate u x else x
  | none => x

/-- `passoLinha` never changes the primary key. -/
theorem passoLinha_id (lk : Str → Except String (Option NfseConsulta)) (s x : RpsRow) :
    (passoLinha lk s x).id = x.id := by
  rw [passoLinha]
  rcases syncDecision lk s with - | ⟨u, f⟩
  · rfl
  · dsimp only
    by_cases h : x.id = s.id
    · rw [if_pos h, aplicarUpdate_id]
    · rw [if_neg h]

/-- Applying the same partial update twice is the same as once. -/
theorem aplicarUpdate_idem (u : RpsUpdate) (r : RpsRow) :
    aplicarUpdate u (aplicarUpdate u r) = aplicarUpdate u r := by
  rcases u with ⟨us, un, um⟩
  rcases us <;> rcases un <;> rcases um <;> rfl

/-- The store component of the reconciler is the pointwise fold of
`passoLinha` over the selected snapshots. -/
theorem sincronizar_bridge (lk : Str → Except String (Option NfseConsulta))
    (store : List RpsRow) :
    (sincronizarStatusNFSe lk store).1 =
      store.map (fun r =>
        (selecionarParaSync store).foldl (fun x s => passoLinha lk s x) r) := by
  have geral : ∀ (sel : List RpsRow) (st : List RpsRow) (a c : Nat),
      ((sel.foldl (syncPasso lk) (st, a, c)).1) =
        st.map (fun r => sel.foldl (fun x s => passoLinha lk s x) r) := by
    intro sel
    induction sel with
    | nil =>
      intro st a c
      simp
    | cons s resto ih =>
      intro st a c
      rw [List.foldl_cons, syncPasso_decision]
      rcases hdec : syncDecision lk s with - | ⟨u, flag⟩
      · have hrow : ∀ r : RpsRow, passoLinha lk s r = r := by
          intro r
          rw [passoLinha, hdec]
        rw [ih st a c]
        apply List.map_congr_left
        intro r _
        rw [List.foldl_cons, hrow r]
      · have hrow : ∀ r : RpsRow,
            passoLinha lk s r = if r.id = s.id then aplicarUpdate u r else r := by
          intro r
          rw [passoLinha, hdec]
        rcases flag with - | -
        · dsimp only
          rw [ih _ (a + 1) c, atualizar, List.map_map]
          apply List.map_congr_left
          intro r _
          rw [List.foldl_cons, hrow r]
          rfl
        · dsimp only
          rw [ih _ a (c + 1), atualizar, List.map_map]
          apply List.map_congr_left
          intro r _
          rw [List.foldl_cons, hrow r]
          rfl
  rw [sincronizarStatusNFSe]
  exact geral (selecionarParaSync store) store 0 0

/-- A row whose id no selected snapshot targets survives the fold
unchanged (stated for every row sharing that id). -/
theorem foldl_passoLinha_fix (lk : Str → Except String (Option NfseConsulta)) :
    ∀ (sel : List RpsRow) (x : RpsRow),
      (∀ s ∈ sel, ∀ y : RpsRow, y.id = x.id → passoLinha lk s y = y) →
      sel.foldl (fun y s => passoLinha lk s y) x = x := by
  intro sel
  induction sel with
  | nil => intro x _; rfl
  | cons s resto ih =>
    intro x h
    rw [List.foldl_cons, h s (List.mem_cons_self _ _) x rfl]
    exact ih x (fun s2 hs2 => h s2 (List.mem_cons_of_mem _ hs2))

/-- Once the decision update for `r` has been applied, the rest of the
fold leaves it fixed (the only snapshot that can target it is `r`
itself, and the update is idempotent). -/
theorem foldl_passoLinha_absorb (lk : Str → Except String (Option NfseConsulta)) :
    ∀ (sel : List RpsRow) (u : RpsUpdate) (flag : Bool) (r : RpsRow),
      syncDecision lk r = some (u, flag) →
      (∀ s ∈ sel, s.id = r.id → s = r) →
      sel.foldl (fun x s => passoLinha lk s x) (aplicarUpdate u r) = aplicarUpdate u r := by
  intro sel
  induction sel with
  | nil => intro u flag r _ _; rfl
  | cons s resto ih =>
    intro u flag r hdec hsel
    rw [List.foldl_cons]
    by_cases hid : s.id = r.id
    · have hs : s = r := hsel s (List.mem_cons_self _ _) hid
      subst hs
      have hstep : passoLinha lk s (aplicarUpdate u s) = aplicarUpdate u s := by
        rw [passoLinha, hdec]
        dsimp only
        rw [if_pos (aplicarUpdate_id u s), aplicarUpdate_idem]
      rw [hstep]
      exact ih u flag s hdec (fun s2 hs2 => hsel s2 (List.mem_cons_of_mem _ hs2))
    · have hstep : passoLinha lk s (aplicarUpdate u r) = aplicarUpdate u r := by
        rw [passoLinha]
        rcases hdec2 : syncDecision lk s with - | ⟨u2, f2⟩
        · rfl
        · dsimp only
          rw [if_neg]
          rw [aplicarUpdate_id]
          intro hcon
          exact hid (hcon.symm)
      rw [hstep]
      exact ih u flag r hdec (fun s2 hs2 => hsel s2 (List.mem_cons_of_mem _ hs2))

/-- The pointwise fold either leaves a row unchanged or applies exactly
the decision update of that row itself (when snapshot ids are unique
over the row's id). -/
theorem foldl_passoLinha_char (lk : Str → Except String (Option NfseConsulta)) :
    ∀ (sel : List RpsRow) (r : RpsRow),
      (∀ s ∈ sel, s.id = r.id → s = r) →
      (sel.foldl (fun x s => passoLinha lk s x) r = r ∨
        (r ∈ sel ∧ ∃ u flag, syncDecision lk r = some (u, flag) ∧
          sel.foldl (fun x s => passoLinha lk s x) r = aplicarUpdate u r)) := by
  intro sel
  induction sel with
  | nil => intro r _; exact Or.inl rfl
  | cons s resto ih =>
    intro r hsel
    by_cases hid : s.id = r.id
    · have hs : s = r := hsel s (List.mem_cons_self _ _) hid
      subst hs
      rcases hdec : syncDecision lk s with - | ⟨u, flag⟩
      · have hstep : passoLinha lk s s = s := by rw [passoLinha, hdec]
        rw [List.foldl_cons, hstep]
        rcases ih s (fun s2 hs2 => hsel s2 (List.mem_cons_of_mem _ hs2)) with h | ⟨hmem, u, f, hd, he⟩
        · exact Or.inl h
        · rw [hdec] at hd
          exact Option.noConfusion hd
      · have hstep : passoLinha lk s s = aplicarUpdate u s := by
          rw [passoLinha, hdec]
          dsimp only
          rw [if_pos rfl]
        rw [List.foldl_cons, hstep]
        refine Or.inr ⟨List.mem_cons_self _ _, u, flag, rfl, ?_⟩
        exact foldl_passoLinha_absorb lk resto u flag s hdec
          (fun s2 hs2 => hsel s2 (List.mem_cons_of_mem _ hs2))
    · have hstep : passoLinha lk s r = r := by
        rw [passoLinha]
        rcases hdec2 : syncDecision lk s with - | ⟨u2, f2⟩
        · rfl
        · dsimp only
          rw [if_neg]
          intro hcon
          exact hid (hcon.symm)
      rw [List.foldl_cons, hstep]
      rcases ih r (fun s2 hs2 => hsel s2 (List.mem_cons_of_mem _ hs2)) with h | ⟨hmem, u, f, hd, he⟩
      · exact Or.inl h
      · exact Or.inr ⟨List.mem_cons_of_mem _ hmem, u, f, hd, he⟩

/-- Membership in the reconciler's selection forces one of the three
selected shapes and membership in the store. -/
theorem mem_selecionar (r : RpsRow) (store : List RpsRow)
    (h : r ∈ selecionarParaSync store) :
    r ∈ store ∧ (r.status = "pendente" ∨ r.status = "processando" ∨
      (r.status = "emitido" ∧ strTruthy r.numeroNFSe = false)) := by
  rw [selecionarParaSync] at h
  rcases List.mem_append.1 h with h | h
  · rcases List.mem_append.1 h with h | h
    · have h2 := (List.take_sublist _ _).subset h
      have h3 := List.mem_filter.1 h2
      exact ⟨h3.1, Or.inl (by simpa using h3.2)⟩
    · have h2 := (List.take_sublist _ _).subset h
      have h3 := List.mem_filter.1 h2
      exact ⟨h3.1, Or.inr (Or.inl (by simpa using h3.2))⟩
  · have h2 := List.mem_filter.1 h
    have h3 := (List.take_sublist _ _).subset h2.1
    have h4 := List.mem_filter.1 h3
    refine ⟨h4.1, Or.inr (Or.inr ⟨by simpa using h4.2, ?_⟩)⟩
    have h5 := h2.2
    revert h5
    cases strTruthy r.numeroNFSe <;> simp

/-- The pointwise fold never changes the primary key. -/
theorem foldl_passoLinha_preserva_id (lk : Str → Except String (Option NfseConsulta)) :
    ∀ (sel : List RpsRow) (x : RpsRow),
      (sel.foldl (fun y s => passoLinha lk s y) x).id = x.id := by
  intro sel
  induction sel with
  | nil => intro x; rfl
  | cons s resto ih =>
    intro x
    rw [List.foldl_cons, ih, passoLinha_id]

/-- Lookup by primary key through an id-preserving row map. -/
theorem buscarPorId_map_pres (f : RpsRow → RpsRow) (hf : ∀ x, (f x).id = x.id)
    (store : List RpsRow) (id : Nat) :
    buscarPorId (store.map f) id = (buscarPorId store id).map f := by
  induction store with
  | nil => rfl
  | cons r resto ih =>
    by_cases hid : r.id = id
    · rw [List.map_cons, buscarPorId, List.find?_cons_of_pos _ (by simp [hf, hid]),
        buscarPorId, List.find?_cons_of_pos _ (by simp [hid])]
      rfl
    · rw [List.map_cons, buscarPorId, List.find?_cons_of_neg _ (by simp [hf, hid]),
        buscarPorId, List.find?_cons_of_neg _ (by simp [hid])]
      exact ih

/-- With distinct primary keys, looking a stored row's key up finds
that row. -/
theorem buscarPorId_of_nodup :
    ∀ (store : List RpsRow), ((store.map (fun r => r.id)).Nodup) →
      ∀ r ∈ store, buscarPorId store r.id = some r := by
  intro store
  induction store with
  | nil => intro _ r hr; exact absurd hr (List.not_mem_nil r)
  | cons s resto ih =>
    intro hN r hr
    rw [List.map_cons, List.nodup_cons] at hN
    rcases List.mem_cons.1 hr with rfl | hr2
    · rw [buscarPorId, List.find?_cons_of_pos _ (by simp)]
    · have hne : ¬ s.id = r.id := by
        intro hcon
        exact hN.1 (hcon ▸ List.mem_map_of_mem (fun r => r.id) hr2)
      rw [buscarPorId, List.find?_cons_of_neg _ (by simp [hne])]
      exact ih hN.2 r hr2

/-- The record of the C2 counterexample: `processando`, with an
external invoice id. -/
def c2RowProcessando : RpsRow :=
  { id := 1, pedidoVendaId := "10".data, numeroPedido := "42".data, numeroRPS := none
    serie := none, nfseId := some "9".data, numeroNFSe := none, status := "processando"
    mensagemErro := none, valorTotal := 0, nomeCliente := [] }

/-- C2 counterexample: a `processando` record whose remote lookup
succeeds with situation 0 is moved back to `pendente` by the
reconciler — a backward transition of a `processando` record, performed
on a successful lookup, which the claim rules out. -/
theorem sincronizar_regride_processando :
    c2RowProcessando.status = "processando" ∧
    ((sincronizarStatusNFSe (fun _ => Except.ok (some { situacao := some 0, numero := none }))
        [c2RowProcessando]).1.map (fun r => r.status)) = ["pendente"] ∧
    statusRank "pendente" < statusRank "processando" := by
  refine ⟨rfl, by decide, by decide⟩

/-- C2 amended: with distinct primary keys, the reconciler never
touches a record in status `emitido` that carries a (truthy) invoice
number (such records are not selected); and whenever it moves a record
to a strictly earlier status in the `pendente < processando < emitido`
chain, the new status is `pendente` and either the record's remote
lookup succeeded reporting situation 0 (possible from `processando` as
well as from `emitido`-without-number), or the lookup failed and the
record was `emitido` without a number. -/
theorem sincronizar_regressao_caracterizada :
    ∀ (lk : Str → Except String (Option NfseConsulta)) (store : List RpsRow),
      (store.map (fun r => r.id)).Nodup →
      ∀ r ∈ store,
        (r.status = "emitido" → strTruthy r.numeroNFSe = true →
          buscarPorId ((sincronizarStatusNFSe lk store).1) r.id = some r) ∧
        (∀ r2, buscarPorId ((sincronizarStatusNFSe lk store).1) r.id = some r2 →
          statusRank r2.status < statusRank r.status →
          r2.status = "pendente" ∧
          ((∃ nfse, lk (r.nfseId.getD []) = Except.ok (some nfse) ∧
              nfse.situacao = some 0) ∨
            ((∃ e, lk (r.nfseId.getD []) = Except.error e) ∧
              r.status = "emitido" ∧ strTruthy r.numeroNFSe = false))) := by
  intro lk store hN r hmem
  have hinj : ∀ s ∈ selecionarParaSync store, s.id = r.id → s = r := by
    intro s hs hsid
    exact List.inj_on_of_nodup_map hN (mem_selecionar s store hs).1 hmem hsid
  have hlook : buscarPorId ((sincronizarStatusNFSe lk store).1) r.id =
      some ((selecionarParaSync store).foldl (fun x s => passoLinha lk s x) r) := by
    rw [sincronizar_bridge lk store,
      buscarPorId_map_pres _ (foldl_passoLinha_preserva_id lk (selecionarParaSync store)) store r.id,
      buscarPorId_of_nodup store hN r hmem]
    rfl
  constructor
  · intro hstat hnum
    rw [hlook]
    congr 1
    apply foldl_passoLinha_fix
    intro s hs y hy
    rw [passoLinha]
    rcases hdec2 : syncDecision lk s with - | ⟨u2, f2⟩
    · rfl
    · dsimp only
      rw [if_neg]
      intro hcon
      have hs_eq : s = r := hinj s hs (by rw [← hcon, hy])
      have hrsel : r ∈ selecionarParaSync store := hs_eq ▸ hs
      rcases (mem_selecionar r store hrsel).2 with h | h | ⟨-, h2'⟩
      · rw [hstat] at h
        exact absurd h (by decide)
      · rw [hstat] at h
        exact absurd h (by decide)
      · rw [hnum] at h2'
        exact Bool.noConfusion h2'
  · intro r2 hr2 hlt
    rw [hlook] at hr2
    injection hr2 with hr2
    subst hr2
    rcases foldl_passoLinha_char lk (selecionarParaSync store) r hinj with hfix | ⟨hmemsel, u, flag, hdec, happ⟩
    · rw [hfix] at hlt
      exact absurd hlt (lt_irrefl _)
    · rw [happ] at hlt ⊢
      rw [syncDecision] at hdec
      by_cases h1 : strTruthy r.nfseId
      · rw [if_neg (by simp [h1])] at hdec
        rcases h2 : lk (r.nfseId.getD []) with e | d
        · rw [h2] at hdec
          dsimp only at hdec
          by_cases h3 : r.status = "emitido" ∧ !strTruthy r.numeroNFSe
          · rw [if_pos h3] at hdec
            injection hdec with h5
            cases h5
            exact ⟨rfl, Or.inr ⟨⟨e, rfl⟩, h3.1, by simpa using h3.2⟩⟩
          · rw [if_neg h3] at hdec
            exact Option.noConfusion hdec
        · rcases d with - | d
          · rw [h2] at hdec
            exact Option.noConfusion hdec
          · rw [h2] at hdec
            dsimp only at hdec
            by_cases h3 : mapSituacaoNFSe r.status d.situacao ≠ r.status ∨
                (strTruthy d.numero ∧ d.numero ≠ r.numeroNFSe)
            · rw [if_pos h3] at hdec
              injection hdec with h5
              cases h5
              have hstat2 : (aplicarUpdate
                  { status := some (mapSituacaoNFSe r.status d.situacao)
                    numeroNFSe := some (jsOrStr d.numero r.numeroNFSe) } r).status =
                    mapSituacaoNFSe r.status d.situacao := rfl
              rw [hstat2] at hlt ⊢
              by_cases s12 : d.situacao = some 1 ∨ d.situacao = some 2
              · have hmapa : mapSituacaoNFSe r.status d.situacao = "emitido" := by
                  rw [mapSituacaoNFSe, if_pos s12]
                rw [hmapa] at hlt
                rcases (mem_selecionar r store hmemsel).2 with h | h | ⟨h, -⟩ <;>
                  rw [h] at hlt <;> exact absurd hlt (by decide)
              · by_cases s3 : d.situacao = some 3
                · have hmapa : mapSituacaoNFSe r.status d.situacao = "erro" := by
                    rw [mapSituacaoNFSe, if_neg s12, if_pos s3]
                  rw [hmapa] at hlt
                  rcases (mem_selecionar r store hmemsel).2 with h | h | ⟨h, -⟩ <;>
                    rw [h] at hlt <;> exact absurd hlt (by decide)
                · by_cases s0 : d.situacao = some 0
                  · have hmapa : mapSituacaoNFSe r.status d.situacao = "pendente" := by
                      rw [mapSituacaoNFSe, if_neg s12, if_neg s3, if_pos s0]
                    rw [hmapa]
                    exact ⟨rfl, Or.inl ⟨d, rfl, s0⟩⟩
                  · have hmapa : mapSituacaoNFSe r.status d.situacao = r.status := by
                      rw [mapSituacaoNFSe, if_neg s12, if_neg s3, if_neg s0]
                    rw [hmapa] at hlt
                    exact absurd hlt (lt_irrefl _)
            · rw [if_neg h3] at hdec
              exact Option.noConfusion hdec
      · rw [if_pos (by simp [h1])] at hdec
        exact Option.noConfusion hdec

/-- The record of the C2 witness: `emitido`, invoice number present. -/
def c2RowEmitida : RpsRow :=
  { id := 2, pedidoVendaId := "11".data, numeroPedido := "43".data, numeroRPS := none
    serie := none, nfseId := some "9".data, numeroNFSe := some "000123".data
    status := "emitido", mensagemErro := none, valorTotal := 0, nomeCliente := [] }

/-- Witness for C2 amended: an `emitido`-with-number record survives a
reconciliation whose every lookup fails, unchanged; and the backward
move of the counterexample's `processando` record is characterized as
a situation-0 regression to `pendente`. -/
theorem sincronizar_regressao_caracterizada_witness :
    buscarPorId ((sincronizarStatusNFSe (fun _ => Except.error "offline") [c2RowEmitida]).1) 2 =
      some c2RowEmitida ∧
    ({ c2RowProcessando with status := "pendente" } : RpsRow).status = "pendente" ∧
    buscarPorId ((sincronizarStatusNFSe
        (fun _ => Except.ok (some { situacao := some 0, numero := none }))
        [c2RowProcessando]).1) 1 =
      some { c2RowProcessando with status := "pendente" } := by
  refine ⟨?_, ?_, by decide⟩
  · exact (sincronizar_regressao_caracterizada (fun _ => Except.error "offline")
      [c2RowEmitida] (by decide) c2RowEmitida (by decide)).1 rfl (by decide)
  · exact ((sincronizar_regressao_caracterizada
      (fun _ => Except.ok (some { situacao := some 0, numero := none }))
      [c2RowProcessando] (by decide) c2RowProcessando (by decide)).2
      { c2RowProcessando with status := "pendente" } (by decide) (by decide)).1

end Emissor
